import Mathlib

/-!
Verification development for the motif-detection core of the
alpine-chess-social repository (backend/src/unified_analyzer.py and
backend/src/analyzers/).  The chess-library collaborator
(python-chess: move parsing, attack computation, pin detection,
checkmate verification) is out of scope per the specification and is
modelled by oracle fields carried on the per-move context / final
board; every analyzer-owned computation is embedded directly from the
source.
-/

namespace AlpineChess

/-- Chess piece kinds, mirroring the chess.PAWN .. chess.KING constants. -/
inductive PieceType where
  | pawn
  | knight
  | bishop
  | rook
  | queen
  | king
deriving DecidableEq, Repr

/-- Lowercase a string, modelling Python str.lower() on ASCII names. -/
def toLowerStr (s : String) : String :=
  String.mk (s.data.map Char.toLower)

/-- Substring test on character lists: true when sub occurs contiguously. -/
def listContainsSub : List Char → List Char → Bool
  | [], sub => sub.isEmpty
  | c :: rest, sub => sub.isPrefixOf (c :: rest) || listContainsSub rest sub

/-- Python's `sub in s` substring containment for strings. -/
def strContains (s sub : String) : Bool :=
  listContainsSub s.data sub.data

/-- Digit-string to Nat, for parsing time-control base values. -/
def digitsToNat (cs : List Char) : Nat :=
  cs.foldl (fun n c => n * 10 + (c.toNat - 48)) 0

/-- Models Python int(float(base)) on a time-control base component:
digit strings parse directly, "a.b" decimal strings truncate to the
integer part, anything else raises (returns none). -/
def parseBaseTime? (s : String) : Option Nat :=
  let cs := s.data
  if cs ≠ [] && cs.all Char.isDigit then
    some (digitsToNat cs)
  else
    match cs.splitOn '.' with
    | [ip, fp] =>
        if (ip.all Char.isDigit) && (fp.all Char.isDigit) && (ip ≠ [] || fp ≠ []) then
          some (digitsToNat ip)
        else none
    | _ => none

/-- Piece counts of the board position before a move, the inputs of
UnifiedQueenSacrificeAnalyzer._calculate_material_advantage
(kings carry no material value there and are omitted). -/
structure PieceCounts where
  wp : Nat := 0
  wn : Nat := 0
  wb : Nat := 0
  wr : Nat := 0
  wq : Nat := 0
  bp : Nat := 0
  bn : Nat := 0
  bb : Nat := 0
  br : Nat := 0
  bq : Nat := 0
deriving DecidableEq, Repr

/-- Game metadata (game_data.GameMetadata). -/
structure GameMetadata where
  white : String
  black : String
  result : String
  date : Option String := none
  timeControl : Option String := none
  link : Option String := none
deriving DecidableEq, Repr

/-- A piece standing on the final board (python-chess Piece). -/
structure BoardPiece where
  ptype : PieceType
  isWhite : Bool
deriving DecidableEq, Repr

/-- The final position of a game as the back-rank analyzer sees it
after chess.Board(final_fen).  Occupancy is explicit; is_checkmate and
attackers are chess-library collaborator calls and therefore oracle
fields consistent with the occupancy. -/
structure FinalBoard where
  squares : List (Nat × BoardPiece)
  turn : Bool
  checkmate : Bool
  attackersFn : Bool → Nat → List Nat

/-- board.piece_at(square) on the final board. -/
def FinalBoard.pieceAt (b : FinalBoard) (sq : Nat) : Option BoardPiece :=
  (b.squares.find? (fun p => p.1 == sq)).map (·.2)

/-- board.king(color): the square of the king of the given color. -/
def FinalBoard.kingSq (b : FinalBoard) (white : Bool) : Option Nat :=
  (b.squares.find? (fun p => p.2.ptype == PieceType.king && p.2.isWhite == white)).map (·.1)

/-- Results of the regex header extractions the analyzers perform on
the raw PGN text (_get_termination, _extract_elo, '#' in pgn,
_extract_fen with the full-replay fallback folded into finalBoard). -/
structure PgnModel where
  termination : Option String := none
  whiteElo : Option Nat := none
  blackElo : Option Nat := none
  hasMateChar : Bool := false
  finalBoard : Option FinalBoard := none

/-- Complete game data (game_data.GameData); moves are SAN strings,
one per ply, and pgn is modelled by its header-extraction results. -/
structure GameData where
  metadata : GameMetadata
  moves : List String
  pgn : PgnModel

instance : Inhabited GameData :=
  ⟨{ metadata := { white := "", black := "", result := "" }, moves := [], pgn := {} }⟩

/-- Shared helper of queen_sacrifice.py and knight_fork.py start_game:
termination header mentions a time win ('time' in termination.lower()). -/
def terminationMentionsTime (g : GameData) : Bool :=
  match g.pgn.termination with
  | some t => strContains (toLowerStr t) "time"
  | none => false

/-- Shared helper of queen_sacrifice.py and knight_fork.py start_game:
the user's own Elo header parses and is below 600. -/
def userEloBelow600 (g : GameData) (userIsWhite : Bool) : Bool :=
  match (if userIsWhite then g.pgn.whiteElo else g.pgn.blackElo) with
  | some e => e < 600
  | none => false

/-- Python truthiness of an Optional[int] field (None and 0 are falsy). -/
def natOptTruthy : Option Nat → Bool
  | none => false
  | some n => n != 0

/-- The MoveContext handed to analyzers at each ply
(unified_analyzer.MoveContext).  Board-derived facts that come from
chess-library calls (is_capture, piece_at, gives_check, is_pinned) are
oracle fields; the piece counts let the analyzer compute material. -/
structure MoveCtx where
  moveNumber : Nat
  isUserMove : Bool
  isCapture : Bool
  movingPiece : Option PieceType
  capturedPiece : Option PieceType
  toSquare : Nat
  givesCheck : Bool
  queenPinned : Bool
  counts : PieceCounts
  moveSan : String
deriving DecidableEq, Repr

/-- Per-ply payload of the dispatch engine's replay: what
board.parse_san plus the board snapshot yields at one index.  The
dispatch engine derives moveNumber and isUserMove itself. -/
structure PlyInfo where
  isCapture : Bool := false
  movingPiece : Option PieceType := none
  capturedPiece : Option PieceType := none
  toSquare : Nat := 0
  givesCheck : Bool := false
  queenPinned : Bool := false
  counts : PieceCounts := {}
  moveSan : String := ""
deriving DecidableEq, Repr

/-- Build the MoveContext at 1-based ply n (unified_analyzer.analyze_game). -/
def mkMoveCtx (p : PlyInfo) (n : Nat) (isUser : Bool) : MoveCtx :=
  { moveNumber := n
    isUserMove := isUser
    isCapture := p.isCapture
    movingPiece := p.movingPiece
    capturedPiece := p.capturedPiece
    toSquare := p.toSquare
    givesCheck := p.givesCheck
    queenPinned := p.queenPinned
    counts := p.counts
    moveSan := p.moveSan }

namespace UnifiedQueenSacrificeAnalyzer

/-- The potential_sacrifice dict built when the user's queen captures
(the stored chess.Move object is never read back and is omitted). -/
structure PotSac where
  sacrificeSan : String
  sacrificeMoveNumber : Nat
  capturedSquare : Nat
  capturedPieceType : Option PieceType
  capturedPieceValue : Nat
  materialAdvantage : Int
  queenPinned : Bool
deriving DecidableEq, Repr

/-- The potential_check_sacrifice dict built when the user's queen
gives check without capturing. -/
structure CheckSac where
  sacrificeMoveNumber : Nat
  sacrificeSan : String
  queenSquare : Nat
  materialAdvantage : Int
  queenPinned : Bool
deriving DecidableEq, Repr

/-- A recorded sacrifice reference (the ref dict appended to
all_sacrifice_refs in _record_sacrifice). -/
structure SacRef where
  gameData : GameData
  sacrificeMoveNumber : Nat
  sacrificeSan : String
  capturedPieceValue : Nat
  isCheckmateWin : Bool
  isCheckmateInRange : Bool
  userIsWhite : Bool
  movesToMate : Option Int

instance : Inhabited SacRef :=
  ⟨{ gameData := default, sacrificeMoveNumber := 0, sacrificeSan := ""
     capturedPieceValue := 0, isCheckmateWin := false, isCheckmateInRange := false
     userIsWhite := false, movesToMate := none }⟩

/-- Full analyzer state: per-game fields plus the batch-scoped
accumulator all_sacrifice_refs.  The three check-sacrifice fields are
set in __init__ and reset only in finish_game, exactly as in the
source (start_game does not touch them). -/
structure QSState where
  username : String
  gameData : GameData := default
  userIsWhite : Bool := false
  userIsBlack : Bool := false
  userWon : Bool := false
  excludeTimeWin : Bool := false
  eloTooLow : Bool := false
  isCheckmateWin : Bool := false
  potentialSacrifice : Option PotSac := none
  sacrificeFound : Bool := false
  sacrificeLedToMate : Bool := false
  ourQueenWasRecaptured : Bool := false
  recaptureMoveNumber : Option Nat := none
  potentialCheckSacrifice : Option CheckSac := none
  checkSacrificeRecaptured : Bool := false
  checkSacrificeRecaptureMove : Option Nat := none
  allSacrificeRefs : List SacRef := []

/-- _calculate_material_advantage: pawn 1, knight 3, bishop 3, rook 5,
queen 9, summed per color from the board before the move; the user's
side minus the opponent's. -/
def calculateMaterialAdvantage (c : PieceCounts) (userIsWhite : Bool) : Int :=
  let whiteMaterial : Int := c.wp * 1 + c.wn * 3 + c.wb * 3 + c.wr * 5 + c.wq * 9
  let blackMaterial : Int := c.bp * 1 + c.bn * 3 + c.bb * 3 + c.br * 5 + c.bq * 9
  if userIsWhite then whiteMaterial - blackMaterial else blackMaterial - whiteMaterial

/-- _get_piece_value: None maps to 5, pawn 1, knight/bishop 3, rook 5,
queen 9, anything else 5. -/
def getPieceValue : Option PieceType → Nat
  | none => 5
  | some PieceType.pawn => 1
  | some PieceType.knight => 3
  | some PieceType.bishop => 3
  | some PieceType.rook => 5
  | some PieceType.queen => 9
  | some PieceType.king => 5

/-- moves[move_index] if in range else context.move_san. -/
def sanOf (s : QSState) (ctx : MoveCtx) : String :=
  s.gameData.moves.getD (ctx.moveNumber - 1) ctx.moveSan

/-- The potential_sacrifice dict built at a user queen capture. -/
def mkPotential (s : QSState) (ctx : MoveCtx) : PotSac :=
  { sacrificeSan := sanOf s ctx
    sacrificeMoveNumber := ctx.moveNumber
    capturedSquare := ctx.toSquare
    capturedPieceType := ctx.capturedPiece
    capturedPieceValue := getPieceValue ctx.capturedPiece
    materialAdvantage := calculateMaterialAdvantage ctx.counts s.userIsWhite
    queenPinned := ctx.queenPinned }

/-- The potential_check_sacrifice dict built at a user queen check. -/
def mkCheckSac (s : QSState) (ctx : MoveCtx) : CheckSac :=
  { sacrificeMoveNumber := ctx.moveNumber
    sacrificeSan := sanOf s ctx
    queenSquare := ctx.toSquare
    materialAdvantage := calculateMaterialAdvantage ctx.counts s.userIsWhite
    queenPinned := ctx.queenPinned }

/-- Conversion of a pending check sacrifice into a potential_sacrifice
dict (queen_sacrifice.py lines 204-213). -/
def potFromCheckSac (pcs : CheckSac) : PotSac :=
  { sacrificeSan := pcs.sacrificeSan
    sacrificeMoveNumber := pcs.sacrificeMoveNumber
    capturedSquare := pcs.queenSquare
    capturedPieceType := none
    capturedPieceValue := 0
    materialAdvantage := pcs.materialAdvantage
    queenPinned := pcs.queenPinned }

/-- The ref dict appended to all_sacrifice_refs, together with the
moves_to_mate computation of _record_sacrifice. -/
def mkSacRef (s : QSState) (ps : PotSac) : SacRef :=
  let movesToMate : Option Int :=
    if s.isCheckmateWin && !s.gameData.moves.isEmpty then
      let sacrificeFullMove : Nat := (ps.sacrificeMoveNumber + 1) / 2
      let checkmateFullMove : Nat := (s.gameData.moves.length + 1) / 2
      let movesAfterSacrifice : Int := (checkmateFullMove : Int) - (sacrificeFullMove : Int)
      if 1 ≤ movesAfterSacrifice ∧ movesAfterSacrifice ≤ 5 then some movesAfterSacrifice
      else none
    else none
  let isCheckmateInRange : Bool :=
    if s.isCheckmateWin && !s.gameData.moves.isEmpty then
      let sacrificeFullMove : Nat := (ps.sacrificeMoveNumber + 1) / 2
      let checkmateFullMove : Nat := (s.gameData.moves.length + 1) / 2
      let movesAfterSacrifice : Int := (checkmateFullMove : Int) - (sacrificeFullMove : Int)
      decide (2 ≤ movesAfterSacrifice ∧ movesAfterSacrifice ≤ 4)
    else false
  { gameData := s.gameData
    sacrificeMoveNumber := ps.sacrificeMoveNumber
    sacrificeSan := ps.sacrificeSan
    capturedPieceValue := ps.capturedPieceValue
    isCheckmateWin := s.isCheckmateWin
    isCheckmateInRange := isCheckmateInRange
    userIsWhite := s.userIsWhite
    movesToMate := movesToMate }

/-- _record_sacrifice: reject when no potential is pending, when the
material advantage at the sacrifice moment was at least 5, or when the
queen was pinned; otherwise append the ref and mark the game. -/
def recordSacrifice (s : QSState) : QSState :=
  match s.potentialSacrifice with
  | none => s
  | some ps =>
    if ps.materialAdvantage ≥ 5 then
      { s with potentialSacrifice := none }
    else if ps.queenPinned then
      { s with potentialSacrifice := none }
    else
      let ref := mkSacRef s ps
      { s with allSacrificeRefs := s.allSacrificeRefs ++ [ref]
               sacrificeFound := true
               sacrificeLedToMate := ref.movesToMate.isSome
               potentialSacrifice := none }

/-- Clear the three check-sacrifice fields (the resets at the end of
the check-sacrifice branches of process_move). -/
def clearCheckSac (s : QSState) : QSState :=
  { s with potentialCheckSacrifice := none
           checkSacrificeRecaptured := false
           checkSacrificeRecaptureMove := none }

/-- process_move block: user's move after a check-sacrifice queen was
captured (queen_sacrifice.py lines 191-218). -/
def qsBlock6 (s : QSState) (ctx : MoveCtx) : QSState :=
  if ctx.isUserMove && s.checkSacrificeRecaptured && natOptTruthy s.checkSacrificeRecaptureMove then
    if ctx.moveNumber == s.checkSacrificeRecaptureMove.getD 0 + 1 then
      if ctx.isCapture && ctx.capturedPiece == some PieceType.queen then
        clearCheckSac s
      else
        match s.potentialCheckSacrifice with
        | some pcs =>
            clearCheckSac (recordSacrifice { s with potentialSacrifice := some (potFromCheckSac pcs) })
        | none => clearCheckSac s
    else s
  else s

/-- process_move block: opponent captures the queen after a check
sacrifice (lines 179-188); on any non-matching reply the pending check
sacrifice is dropped and control falls through. -/
def qsBlock5 (s : QSState) (ctx : MoveCtx) : QSState :=
  if !ctx.isUserMove && s.potentialCheckSacrifice.isSome then
    match s.potentialCheckSacrifice with
    | some pcs =>
        if ctx.moveNumber == pcs.sacrificeMoveNumber + 1
            && ctx.toSquare == pcs.queenSquare && ctx.isCapture then
          { s with checkSacrificeRecaptured := true
                   checkSacrificeRecaptureMove := some ctx.moveNumber }
        else qsBlock6 { s with potentialCheckSacrifice := none } ctx
    | none => qsBlock6 s ctx
  else qsBlock6 s ctx

/-- process_move block: check sacrifice detection, a user queen move
that is not a capture but gives check (lines 155-176). -/
def qsBlock4 (s : QSState) (ctx : MoveCtx) : QSState :=
  if ctx.isUserMove && !ctx.isCapture then
    if ctx.movingPiece == some PieceType.queen && ctx.givesCheck then
      { s with potentialCheckSacrifice := some (mkCheckSac s ctx) }
    else qsBlock5 s ctx
  else qsBlock5 s ctx

/-- process_move block: the user's move after the queen was recaptured
(lines 129-152). -/
def qsBlock3 (s : QSState) (ctx : MoveCtx) : QSState :=
  if ctx.isUserMove && s.ourQueenWasRecaptured && natOptTruthy s.recaptureMoveNumber then
    if ctx.moveNumber == s.recaptureMoveNumber.getD 0 + 1 then
      if ctx.isCapture && ctx.capturedPiece == some PieceType.queen then
        { s with potentialSacrifice := none
                 ourQueenWasRecaptured := false
                 recaptureMoveNumber := none }
      else
        let s1 := if s.potentialSacrifice.isSome then recordSacrifice s else s
        { s1 with ourQueenWasRecaptured := false, recaptureMoveNumber := none }
    else if s.recaptureMoveNumber.getD 0 + 1 < ctx.moveNumber then
      let s1 := if s.potentialSacrifice.isSome then recordSacrifice s else s
      { s1 with ourQueenWasRecaptured := false, recaptureMoveNumber := none }
    else qsBlock4 s ctx
  else qsBlock4 s ctx

/-- process_move block: the opponent's reply to a pending capture
sacrifice (lines 113-126); a late reply voids the potential and falls
through. -/
def qsBlock2 (s : QSState) (ctx : MoveCtx) : QSState :=
  if !ctx.isUserMove && s.potentialSacrifice.isSome then
    match s.potentialSacrifice with
    | some ps =>
        if ctx.moveNumber == ps.sacrificeMoveNumber + 1 then
          if ctx.toSquare == ps.capturedSquare then
            { s with ourQueenWasRecaptured := true
                     recaptureMoveNumber := some ctx.moveNumber }
          else { s with potentialSacrifice := none }
        else
          qsBlock3 { s with potentialSacrifice := none, ourQueenWasRecaptured := false } ctx
    | none => qsBlock3 s ctx
  else qsBlock3 s ctx

/-- process_move block: the user's queen captures a piece (lines
77-110); capturing the opponent's queen is a trade and returns with no
state change. -/
def qsBlock1 (s : QSState) (ctx : MoveCtx) : QSState :=
  if ctx.isUserMove && ctx.isCapture then
    if ctx.movingPiece == some PieceType.queen then
      if ctx.capturedPiece == some PieceType.queen then s
      else { s with potentialSacrifice := some (mkPotential s ctx) }
    else qsBlock2 s ctx
  else qsBlock2 s ctx

/-- process_move: the guard of line 73 and the block cascade. -/
def processMove (s : QSState) (ctx : MoveCtx) : QSState :=
  if !s.userWon || s.excludeTimeWin || s.eloTooLow || s.sacrificeFound then s
  else qsBlock1 s ctx

/-- start_game: resets the per-game fields it names; the three
check-sacrifice fields and the accumulator are untouched, as in the
source. -/
def startGame (s : QSState) (g : GameData) (userIsWhite userIsBlack : Bool) : QSState :=
  { s with
    gameData := g
    userIsWhite := userIsWhite
    userIsBlack := userIsBlack
    userWon := (g.metadata.result == "1-0" && userIsWhite)
            || (g.metadata.result == "0-1" && userIsBlack)
    excludeTimeWin := terminationMentionsTime g
    eloTooLow := userEloBelow600 g userIsWhite
    isCheckmateWin := match g.moves.getLast? with
      | some m => strContains m "#"
      | none => false
    potentialSacrifice := none
    sacrificeFound := false
    sacrificeLedToMate := false
    ourQueenWasRecaptured := false
    recaptureMoveNumber := none }

/-- finish_game: clears the in-flight per-game machine fields and
returns no findings. -/
def finishGame (s : QSState) : QSState :=
  { s with potentialSacrifice := none
           ourQueenWasRecaptured := false
           recaptureMoveNumber := none
           potentialCheckSacrifice := none
           checkSacrificeRecaptured := false
           checkSacrificeRecaptureMove := none }

/-- The step from s to s' recorded exactly one sacrifice Candidate,
and the pending potential it consumed (either the capture-sacrifice
potential or the conversion of the pending check sacrifice) had
material advantage below 5 and an unpinned queen. -/
def RecordedFrom (s s' : QSState) : Prop :=
  ∃ ps, ps.materialAdvantage < 5 ∧ ps.queenPinned = false ∧
    s'.allSacrificeRefs = s.allSacrificeRefs ++ [mkSacRef s ps] ∧
    (s.potentialSacrifice = some ps ∨
      ∃ pcs, s.potentialCheckSacrifice = some pcs ∧ ps = potFromCheckSac pcs)

end UnifiedQueenSacrificeAnalyzer

namespace UnifiedAnalyzer

open UnifiedQueenSacrificeAnalyzer

/-- A game as the dispatch engine receives it: the GameData plus the
per-ply replay payloads.  Entry i carries the MoveContext data that
parsing move i against the evolving board would produce; none at entry
i means board.parse_san (or the push) raises there, as for a malformed
move sequence. -/
structure DispatchGame where
  gameData : GameData
  plies : List (Option PlyInfo)

/-- _is_hyper_bullet: base time below 60 seconds; parse failures and a
missing time control are False. -/
def isHyperBullet (tc : Option String) : Bool :=
  match tc with
  | none => false
  | some t =>
      match parseBaseTime? (((t.split (fun c => c == '+')).headD "")) with
      | some base => base < 60
      | none => false

/-- The replay loop of analyze_game, instantiated at the registered
queen-sacrifice analyzer.  i is the 0-based ply index; is_user_move is
board.turn == user_color, which alternates from White at the start.
Returns the state and whether the replay completed without raising. -/
def qsReplay (active userIsWhite : Bool) : QSState → List (Option PlyInfo) → Nat → QSState × Bool
  | s, [], _ => (s, true)
  | s, none :: _, _ => (s, false)
  | s, some p :: rest, i =>
      let ctx := mkMoveCtx p (i + 1) (((i % 2 == 0) : Bool) == userIsWhite)
      qsReplay active userIsWhite (if active then processMove s ctx else s) rest (i + 1)

/-- The case-insensitive name match of analyze_game against the white
player (the username argument is the analyzer's lowered username). -/
def userWhiteFor (username : String) (dg : DispatchGame) : Bool :=
  toLowerStr dg.gameData.metadata.white == username

/-- The case-insensitive name match against the black player. -/
def userBlackFor (username : String) (dg : DispatchGame) : Bool :=
  toLowerStr dg.gameData.metadata.black == username

/-- The dispatch engine's user_won predicate, which makes the
win-only queen-sacrifice analyzer active (_get_active_analyzers). -/
def activeFor (username : String) (dg : DispatchGame) : Bool :=
  (dg.gameData.metadata.result == "1-0" && userWhiteFor username dg)
    || (dg.gameData.metadata.result == "0-1" && !userWhiteFor username dg)

/-- analyze_game, instantiated at the queen-sacrifice analyzer: name
match, hyper-bullet skip, start hook, win-only activity pre-filter,
replay with the exception handler (on error the finish hook is NOT
called and the empty findings dict is returned), finish hook
otherwise. -/
def analyzeGame (username : String) (s : QSState) (dg : DispatchGame) : QSState :=
  if !userWhiteFor username dg && !userBlackFor username dg then s
  else if isHyperBullet dg.gameData.metadata.timeControl then s
  else
    let s1 := startGame s dg.gameData (userWhiteFor username dg) (userBlackFor username dg)
    if dg.gameData.moves.isEmpty then s1
    else
      match qsReplay (activeFor username dg) (userWhiteFor username dg) s1 dg.plies 0 with
      | (s2, false) => s2
      | (s2, true) => finishGame s2

/-- analyze_games: every game of the batch is fed through analyze_game
in input order, regardless of earlier failures. -/
def analyzeGames (username : String) (s : QSState) (games : List DispatchGame) : QSState :=
  games.foldl (analyzeGame username) s

/-- Fold of the queen-sacrifice per-move hook over an error-free
prefix of plies starting at 0-based index i0 (what the replay performs
before hitting a malformed move). -/
def qsFoldPlies (active userIsWhite : Bool) : QSState → List PlyInfo → Nat → QSState
  | s, [], _ => s
  | s, p :: rest, i =>
      let ctx := mkMoveCtx p (i + 1) (((i % 2 == 0) : Bool) == userIsWhite)
      qsFoldPlies active userIsWhite (if active then processMove s ctx else s) rest (i + 1)

end UnifiedAnalyzer

namespace UnifiedKnightForkAnalyzer

/-- PIECE_VALUES of knight_fork.py: king counted as 100. -/
def pieceValue : PieceType → Nat
  | PieceType.pawn => 1
  | PieceType.knight => 3
  | PieceType.bishop => 3
  | PieceType.rook => 5
  | PieceType.queen => 9
  | PieceType.king => 100

/-- MIN_FORK_VALUE. -/
def minForkValue : Nat := 8

/-- Human-readable name of a forked piece (_piece_name). -/
def pieceName : PieceType → String
  | PieceType.pawn => "Pawn"
  | PieceType.knight => "Knight"
  | PieceType.bishop => "Bishop"
  | PieceType.rook => "Rook"
  | PieceType.queen => "Queen"
  | PieceType.king => "King"

/-- Per-move context for the knight-fork analyzer.  attackedPieces is
the output of _get_attacked_pieces (board.attacks is the chess-library
collaborator): the squares and kinds of opponent pieces the knight
attacks after the move. -/
structure KFCtx where
  moveNumber : Nat
  isUserMove : Bool
  movingPiece : Option PieceType
  toSquare : Nat
  attackedPieces : List (Nat × PieceType)
  moveSan : String
deriving DecidableEq, Repr

/-- A recorded knight-fork reference (the ref dict appended to
all_fork_refs). -/
structure KFRef where
  gameData : GameData
  forkMoveNumber : Nat
  forkSan : String
  forkedPieces : List String
  totalValue : Nat
  isRoyalFork : Bool
  userIsWhite : Bool
  knightSquare : Nat
  attackedSquares : List Nat

/-- Knight-fork analyzer state: per-game gates and the batch-scoped
accumulator all_fork_refs. -/
structure KFState where
  username : String
  gameData : GameData := default
  userIsWhite : Bool := false
  userIsBlack : Bool := false
  userWon : Bool := false
  excludeTimeWin : Bool := false
  eloTooLow : Bool := false
  forkFoundInGame : Bool := false
  allForkRefs : List KFRef := []

/-- start_game of knight_fork.py: win pre-filter, time-win and low-Elo
exclusions, and the one-fork-per-game flag reset. -/
def startGame (s : KFState) (g : GameData) (userIsWhite userIsBlack : Bool) : KFState :=
  { s with
    gameData := g
    userIsWhite := userIsWhite
    userIsBlack := userIsBlack
    userWon := (g.metadata.result == "1-0" && userIsWhite)
            || (g.metadata.result == "0-1" && userIsBlack)
    excludeTimeWin := terminationMentionsTime g
    eloTooLow := userEloBelow600 g userIsWhite
    forkFoundInGame := false }

/-- Total value of the forked pieces. -/
def totalValueOf (attacked : List (Nat × PieceType)) : Nat :=
  (attacked.map (fun a => pieceValue a.2)).sum

/-- The ref dict recorded for a qualifying fork. -/
def mkForkRef (s : KFState) (ctx : KFCtx) : KFRef :=
  { gameData := s.gameData
    forkMoveNumber := ctx.moveNumber
    forkSan := s.gameData.moves.getD (ctx.moveNumber - 1) ctx.moveSan
    forkedPieces := ctx.attackedPieces.map (fun a => pieceName a.2)
    totalValue := totalValueOf ctx.attackedPieces
    isRoyalFork := ctx.attackedPieces.any (fun a => a.2 == PieceType.king)
    userIsWhite := s.userIsWhite
    knightSquare := ctx.toSquare
    attackedSquares := ctx.attackedPieces.map (·.1) }

/-- process_move of knight_fork.py: gates, user-move and knight-move
checks, one-fork-per-game limit, at least two attacked pieces of
combined value at least MIN_FORK_VALUE. -/
def processMove (s : KFState) (ctx : KFCtx) : KFState :=
  if !s.userWon || s.excludeTimeWin || s.eloTooLow then s
  else if !ctx.isUserMove then s
  else if s.forkFoundInGame then s
  else if !(ctx.movingPiece == some PieceType.knight) then s
  else if ctx.attackedPieces.length < 2 then s
  else if totalValueOf ctx.attackedPieces < minForkValue then s
  else
    { s with allForkRefs := s.allForkRefs ++ [mkForkRef s ctx]
             forkFoundInGame := true }

/-- finish_game of knight_fork.py. -/
def finishGame (s : KFState) : KFState :=
  { s with forkFoundInGame := false }

/-- Whether a ply qualifies as a recordable fork for a game whose
gates are as in s (all the process_move conditions except the
one-per-game flag). -/
def kfQualifies (s : KFState) (ctx : KFCtx) : Bool :=
  s.userWon && !s.excludeTimeWin && !s.eloTooLow && ctx.isUserMove
    && (ctx.movingPiece == some PieceType.knight)
    && decide (2 ≤ ctx.attackedPieces.length)
    && decide (minForkValue ≤ totalValueOf ctx.attackedPieces)

end UnifiedKnightForkAnalyzer

namespace UnifiedWindmillAnalyzer

/-- MIN_CAPTURES. -/
def minCaptures : Nat := 2

/-- MIN_DISCOVERED_CHECKS. -/
def minDiscoveredChecks : Nat := 1

/-- Per-move context for the windmill analyzer.  The chess-library
collaborator facts are oracle fields: movingPiece is piece_at of the
origin, givesCheck is board.gives_check(move), legalRepliesAfter is
the number of legal moves in the position after the move,
isCheckAfter and attackersAfterOnKing describe the position after the
move (is_check, and the user-side attackers of the opponent king). -/
structure WCtx where
  moveNumber : Nat
  isUserMove : Bool
  isCapture : Bool
  movingPiece : Option PieceType
  toSquare : Nat
  givesCheck : Bool
  legalRepliesAfter : Nat
  isCheckAfter : Bool
  attackersAfterOnKing : List Nat
  moveSan : String
deriving DecidableEq, Repr

/-- An entry of windmill_sequence.  King-move entries are created
without the is_discovered key, so reading it back yields False; that
default is materialized here. -/
structure WEntry where
  halfMove : Nat
  move : String
  dest : Option Nat
  isCapture : Bool
  isDiscovered : Bool
  isUserMove : Bool
deriving DecidableEq, Repr

/-- A recorded windmill reference (the dict appended to
all_windmill_refs). -/
structure WRef where
  gameData : GameData
  startHalfMove : Nat
  startHalfMove1Indexed : Nat
  sequence : List WEntry
  captures : Nat
  userIsWhite : Bool

/-- Windmill analyzer state. -/
structure WState where
  username : String
  gameData : GameData := default
  userIsWhite : Bool := false
  userIsBlack : Bool := false
  skipGame : Bool := false
  windmillSequence : List WEntry := []
  returnSquare : Option Nat := none
  windmillFound : Bool := false
  allWindmillRefs : List WRef := []

/-- _is_rook_check: the user's rook move that gives check. -/
def isRookCheck (ctx : WCtx) : Bool :=
  ctx.isUserMove && (ctx.movingPiece == some PieceType.rook) && ctx.givesCheck

/-- _is_king_move: the opponent moves the king. -/
def isKingMove (ctx : WCtx) : Bool :=
  !ctx.isUserMove && (ctx.movingPiece == some PieceType.king)

/-- _king_is_trapped: at most 2 legal replies after the check. -/
def kingIsTrapped (ctx : WCtx) : Bool :=
  ctx.legalRepliesAfter ≤ 2

/-- _is_discovered_check: after the move the opponent king is in
check and some attacker other than the moved rook attacks it (this
covers double checks). -/
def isDiscoveredCheck (ctx : WCtx) : Bool :=
  if !ctx.isCheckAfter then false
  else !(ctx.attackersAfterOnKing.filter (fun sq => sq != ctx.toSquare)).isEmpty

/-- The rook-move entries of a sequence (dest is not None). -/
def rookMovesOf (seq : List WEntry) : List WEntry :=
  seq.filter (fun e => e.dest.isSome)

/-- Captures among the rook-move entries. -/
def rookCaptureCount (seq : List WEntry) : Nat :=
  (rookMovesOf seq).countP (fun e => e.isCapture)

/-- Discovered checks among the rook-move entries. -/
def rookDiscoveredCount (seq : List WEntry) : Nat :=
  (rookMovesOf seq).countP (fun e => e.isDiscovered)

/-- Captures among all entries of a run (rook moves and king moves). -/
def captureCount (seq : List WEntry) : Nat :=
  seq.countP (fun e => e.isCapture)

instance : Inhabited WEntry :=
  ⟨{ halfMove := 0, move := "", dest := none, isCapture := false
     isDiscovered := false, isUserMove := false }⟩

/-- The ref recorded for a qualifying run. -/
def mkWindmillRef (s : WState) (caps : Nat) : WRef :=
  { gameData := s.gameData
    startHalfMove := (s.windmillSequence.headD default).halfMove
    startHalfMove1Indexed := (s.windmillSequence.headD default).halfMove + 1
    sequence := s.windmillSequence
    captures := caps
    userIsWhite := s.userIsWhite }

/-- _check_and_record_windmill: a run of at least 3 entries with at
least 2 rook moves qualifies when the rook moves contain at least
MIN_CAPTURES captures and MIN_DISCOVERED_CHECKS discovered checks. -/
def checkAndRecordWindmill (s : WState) : WState :=
  if s.windmillSequence.length < 3 then s
  else if (rookMovesOf s.windmillSequence).length < 2 then s
  else
    let totalCaptures := rookCaptureCount s.windmillSequence
    let discoveredChecks := rookDiscoveredCount s.windmillSequence
    if totalCaptures < minCaptures || discoveredChecks < minDiscoveredChecks then s
    else
      { s with allWindmillRefs := s.allWindmillRefs ++ [mkWindmillRef s totalCaptures]
               windmillFound := true }

/-- moves[move_index] if in range else context.move_san. -/
def wSanOf (s : WState) (ctx : WCtx) : String :=
  s.gameData.moves.getD (ctx.moveNumber - 1) ctx.moveSan

/-- A rook-check entry as built in process_move. -/
def mkRookEntry (s : WState) (ctx : WCtx) : WEntry :=
  { halfMove := ctx.moveNumber - 1
    move := wSanOf s ctx
    dest := some ctx.toSquare
    isCapture := ctx.isCapture
    isDiscovered := isDiscoveredCheck ctx
    isUserMove := true }

/-- A king-move entry as built in process_move (no is_discovered key:
it reads back as False). -/
def mkKingEntry (s : WState) (ctx : WCtx) : WEntry :=
  { halfMove := ctx.moveNumber - 1
    move := wSanOf s ctx
    dest := none
    isCapture := ctx.isCapture
    isDiscovered := false
    isUserMove := false }

/-- process_move of windmill.py: rook checks extend or finalize the
sequence depending on king mobility, opponent king moves extend it,
and any other move finalizes it. -/
def processMove (s : WState) (ctx : WCtx) : WState :=
  if s.skipGame || s.windmillFound then s
  else if isRookCheck ctx then
    if !kingIsTrapped ctx then
      if !s.windmillSequence.isEmpty then
        let s1 := checkAndRecordWindmill s
        { s1 with windmillSequence := [], returnSquare := none }
      else s
    else
      if !s.windmillSequence.isEmpty then
        { s with windmillSequence := s.windmillSequence ++ [mkRookEntry s ctx] }
      else
        { s with returnSquare := some ctx.toSquare
                 windmillSequence := [mkRookEntry s ctx] }
  else if isKingMove ctx && !s.windmillSequence.isEmpty then
    { s with windmillSequence := s.windmillSequence ++ [mkKingEntry s ctx] }
  else if !s.windmillSequence.isEmpty && !(isKingMove ctx) then
    let s1 := checkAndRecordWindmill s
    { s1 with windmillSequence := [], returnSquare := none }
  else s

/-- finish_game of windmill.py: one last qualification check of any
open sequence (inlined in the source with the same conditions), then
the per-game reset. -/
def finishGame (s : WState) : WState :=
  let s1 :=
    if decide (3 ≤ s.windmillSequence.length)
        && decide (2 ≤ (rookMovesOf s.windmillSequence).length)
        && decide (minCaptures ≤ rookCaptureCount s.windmillSequence)
        && decide (minDiscoveredChecks ≤ rookDiscoveredCount s.windmillSequence) then
      { s with allWindmillRefs := s.allWindmillRefs ++ [mkWindmillRef s (rookCaptureCount s.windmillSequence)] }
    else s
  { s1 with windmillSequence := [], returnSquare := none, windmillFound := false }

end UnifiedWindmillAnalyzer

namespace UnifiedBackRankMateAnalyzer

/-- Material value table of _calculate_material (king absent from the
dict, hence 0). -/
def matValue : PieceType → Nat
  | PieceType.pawn => 1
  | PieceType.knight => 3
  | PieceType.bishop => 3
  | PieceType.rook => 5
  | PieceType.queen => 9
  | PieceType.king => 0

/-- _calculate_material: total material of one color, king excluded. -/
def calculateMaterial (b : FinalBoard) (white : Bool) : Nat :=
  b.squares.foldl (fun acc p => if p.2.isWhite == white then acc + matValue p.2.ptype else acc) 0

/-- The forward escape squares checked by _is_king_properly_blocked:
files kingFile-1, kingFile, kingFile+1 clipped to the board, on the
given escape rank (square = rank*8+file as in python-chess). -/
def escapeTargets (kingFile : Nat) (escapeRank : Nat) : List Nat :=
  ([-1, 0, 1] : List Int).filterMap (fun off =>
    let tf : Int := (kingFile : Int) + off
    if 0 ≤ tf ∧ tf ≤ 7 then some (escapeRank * 8 + tf.toNat) else none)

/-- Number of escape squares occupied by the mated side's own pieces. -/
def escapeBlockedCount (b : FinalBoard) (kingFile escapeRank : Nat) (matedWhite : Bool) : Nat :=
  (escapeTargets kingFile escapeRank).countP (fun sq =>
    match b.pieceAt sq with
    | some p => p.isWhite == matedWhite
    | none => false)

/-- _is_king_properly_blocked: king on its home rank and at least
total-1 of the forward escape squares blocked by own pieces. -/
def isKingProperlyBlocked (b : FinalBoard) (matedWhite : Bool) : Bool :=
  match b.kingSq matedWhite with
  | none => false
  | some ks =>
    let kingRank := ks / 8
    let kingFile := ks % 8
    if matedWhite then
      if kingRank != 0 then false
      else
        let total := (escapeTargets kingFile 1).length
        decide (total - 1 ≤ escapeBlockedCount b kingFile 1 matedWhite) && decide (0 < total)
    else
      if kingRank != 7 then false
      else
        let total := (escapeTargets kingFile 6).length
        decide (total - 1 ≤ escapeBlockedCount b kingFile 6 matedWhite) && decide (0 < total)

/-- A recorded back-rank-mate reference. -/
structure BRRef where
  gameData : GameData
  finalMoveNumber : Nat
  lastMove : String
  userIsWhite : Bool
  isRookMate : Bool
  enemyMaterial : Nat

/-- Back-rank analyzer state. -/
structure BRState where
  username : String
  gameData : GameData := default
  userIsWhite : Bool := false
  userIsBlack : Bool := false
  foundBackRankMate : Bool := false
  allFindings : List BRRef := []

/-- The result-header win check of finish_game. -/
def brUserWon (s : BRState) : Bool :=
  (s.gameData.metadata.result == "1-0" && s.userIsWhite)
    || (s.gameData.metadata.result == "0-1" && s.userIsBlack)

/-- re.match('^[RQ]', m): the SAN starts with a rook or queen letter. -/
def sanStartsRQ (m : String) : Bool :=
  match m.data.head? with
  | some c => c == 'R' || c == 'Q'
  | none => false

/-- An attacker square holding a rook or queen standing on the back
rank. -/
def attackerIsRQOnRank (b : FinalBoard) (backRank : Nat) (asq : Nat) : Bool :=
  match b.pieceAt asq with
  | some p => (p.ptype == PieceType.rook || p.ptype == PieceType.queen) && (asq / 8 == backRank)
  | none => false

/-- The ref appended to all_findings when a back-rank mate is found. -/
def mkBRRef (s : BRState) (lastMove : String) (fb : FinalBoard) (matedWhite : Bool) : BRRef :=
  { gameData := s.gameData
    finalMoveNumber := s.gameData.moves.length
    lastMove := lastMove
    userIsWhite := s.userIsWhite
    isRookMate := (lastMove.data.head? == some 'R')
    enemyMaterial := calculateMaterial fb matedWhite }

/-- finish_game of back_rank_mate.py: the full early-return chain.
The final position comes from the pgn model's finalBoard (header FEN
with full-replay fallback; none when both fail or chess.Board(fen)
raises). -/
def finishGame (s : BRState) : BRState :=
  if !s.gameData.pgn.hasMateChar then s
  else if !brUserWon s then s
  else
    match s.gameData.moves.getLast? with
    | none => s
    | some lastMove =>
      if !(sanStartsRQ lastMove && strContains lastMove "#") then s
      else if s.userIsWhite && s.gameData.moves.length % 2 == 0 then s
      else if !s.userIsWhite && s.gameData.moves.length % 2 == 1 then s
      else
        match s.gameData.pgn.finalBoard with
        | none => s
        | some fb =>
          if !fb.checkmate then s
          else
            let matedWhite := fb.turn
            if !((matedWhite && !s.userIsWhite) || (!matedWhite && s.userIsWhite)) then s
            else
              match fb.kingSq matedWhite with
              | none => s
              | some ks =>
                let backRank := if matedWhite then 0 else 7
                if ks / 8 != backRank then s
                else
                  let attackers := fb.attackersFn (!matedWhite) ks
                  if attackers.isEmpty then s
                  else if !(attackers.any (attackerIsRQOnRank fb backRank)) then s
                  else if !isKingProperlyBlocked fb matedWhite then s
                  else
                    { s with foundBackRankMate := true
                             allFindings := s.allFindings ++ [mkBRRef s lastMove fb matedWhite] }

end UnifiedBackRankMateAnalyzer

namespace UnifiedBestGameAnalyzer

/-- A value of the externally supplied scoring configuration document:
either a simple numeric point value or a structured table (thresholds
or multiplier lookups), matching the isinstance(int, float) split in
rescore_with_fallback_config. -/
inductive ConfigVal where
  | num (v : Int)
  | table
deriving DecidableEq, Repr

/-- The fallback scoring configuration
(config/game_scoring_config_fallback.json): an elo_threshold (default
600 via .get) and the keyed point entries. -/
structure FallbackConfig where
  eloThreshold : Int := 600
  entries : List (String × ConfigVal) := []

/-- fallback_config.get(key). -/
def FallbackConfig.lookup (cfg : FallbackConfig) (key : String) : Option ConfigVal :=
  (cfg.entries.find? (fun e => e.1 == key)).map (·.2)

/-- A stored per-game scoring reference (the game_ref dict of
finish_game_scoring): its breakdown and total, with the game_data
reference modelled by an identifying index. -/
structure GameRef where
  gameId : Nat
  totalPoints : Int
  breakdown : List (String × Int)
  userIsWhite : Bool
deriving DecidableEq, Repr

instance : Inhabited GameRef :=
  ⟨{ gameId := 0, totalPoints := 0, breakdown := [], userIsWhite := false }⟩

/-- Best-game tracker state: best_game_score is float('-inf') before
any game, modelled as none. -/
structure BGState where
  bestScore : Option Int := none
  bestRef : Option GameRef := none
  allGameRefs : List GameRef := []
deriving DecidableEq, Repr

/-- The strict-greater comparison against best_game_score
(float('-inf') loses to every total). -/
def beatsBest (best : Option Int) (total : Int) : Bool :=
  match best with
  | none => true
  | some b => total > b

/-- The tail of finish_game_scoring (best_game.py lines 260-272):
store the game_ref in all_game_refs and update the tracked best on a
strictly greater total.  The total itself is computed by lines
164-259 as a pure function of the per-game analyzer contributions and
the configuration; this embedding takes that total as carried by the
ref. -/
def trackGame (s : BGState) (ref : GameRef) : BGState :=
  let s1 := { s with allGameRefs := s.allGameRefs ++ [ref] }
  if beatsBest s.bestScore ref.totalPoints then
    { s1 with bestScore := some ref.totalPoints, bestRef := some ref }
  else s1

/-- The batch-level scoring pass: finish_game_scoring applied to each
game's ref in ingestion order, starting from the fresh tracker. -/
def runScoring (refs : List GameRef) : BGState :=
  refs.foldl trackGame {}

/-- The per-key recomputation of rescore_with_fallback_config: simple
numeric fallback values replace the stored points (zero stays zero,
penalties keep their sign), structured values and missing keys keep
the original points. -/
def rescorePoints (cfg : FallbackConfig) (key : String) (orig : Int) : Int :=
  match cfg.lookup key with
  | some (ConfigVal.num v) =>
      if orig < 0 then (if 0 < v then -v else v)
      else if orig != 0 then v
      else 0
  | some ConfigVal.table => orig
  | none => orig

/-- Rescoring of one stored game_ref: every breakdown entry is
recomputed and the new total is the sum of the new points. -/
def rescoreRef (cfg : FallbackConfig) (ref : GameRef) : GameRef :=
  let newBreakdown := ref.breakdown.map (fun e => (e.1, rescorePoints cfg e.1 e.2))
  { ref with breakdown := newBreakdown
             totalPoints := (newBreakdown.map (·.2)).sum }

/-- rescore_with_fallback_config: nothing happens without a fallback
config document or when the user's average rating is known and below
the config's elo_threshold; otherwise every stored breakdown is
recomputed in place and the best game re-selected with the same
strict-greater update, without replaying any game. -/
def rescoreWithFallbackConfig (s : BGState) (cfg? : Option FallbackConfig)
    (avgElo : Option Int) : BGState :=
  match cfg? with
  | none => s
  | some cfg =>
    if (match avgElo with | some e => decide (e < cfg.eloThreshold) | none => false) then s
    else
      let newRefs := s.allGameRefs.map (rescoreRef cfg)
      newRefs.foldl trackGame { bestScore := none, bestRef := none, allGameRefs := [] }

/-- Modelled from the spec: the orchestration that invokes the
fallback rescoring pass is absent from src/ (no caller of
rescore_with_fallback_config exists there); per the specification the
pass is "applied only when no sacrifice was found anywhere in the
batch", so the caller counts the queen/rook sacrifices found across
the batch and invokes the pass only when that count is zero. -/
def applyFallbackPass (sacrificesFound : Nat) (s : BGState)
    (cfg? : Option FallbackConfig) (avgElo : Option Int) : BGState :=
  if sacrificesFound == 0 then rescoreWithFallbackConfig s cfg? avgElo else s

end UnifiedBestGameAnalyzer

namespace UnifiedBackRankMateAnalyzer

/-- Home rank of the mated king (rank 0 for White, rank 7 for Black). -/
def backRankHomeRank (matedWhite : Bool) : Nat :=
  if matedWhite then 0 else 7

/-- The rank holding the forward escape squares. -/
def backRankEscRank (matedWhite : Bool) : Nat :=
  if matedWhite then 1 else 6

/-- Number of forward escape squares NOT occupied by the mated side's
own pieces (the quantity the claim bounds by one). -/
def escapeOpenCount (b : FinalBoard) (kingFile escapeRank : Nat) (matedWhite : Bool) : Nat :=
  (escapeTargets kingFile escapeRank).countP (fun sq =>
    match b.pieceAt sq with
    | some p => !(p.isWhite == matedWhite)
    | none => true)

/-- The claim's condition for C2, as stated: the game ends in a
verified checkmate delivered by the user, the mated king stands on its
home rank, some attacking rook or queen also stands on that rank, and
at most one forward escape square is not occupied by the mated side's
own pieces. -/
def backRankClaimCondition (s : BRState) : Bool :=
  s.gameData.pgn.hasMateChar && brUserWon s
  && (match s.gameData.moves.getLast? with
      | some lm => strContains lm "#"
      | none => false)
  && (if s.userIsWhite then s.gameData.moves.length % 2 == 1
      else s.gameData.moves.length % 2 == 0)
  && (match s.gameData.pgn.finalBoard with
      | none => false
      | some fb =>
        fb.checkmate && (fb.turn != s.userIsWhite)
        && (match fb.kingSq fb.turn with
            | none => false
            | some ks =>
              (ks / 8 == backRankHomeRank fb.turn)
              && (fb.attackersFn (!fb.turn) ks).any (attackerIsRQOnRank fb (backRankHomeRank fb.turn))
              && decide (escapeOpenCount fb (ks % 8) (backRankEscRank fb.turn) fb.turn ≤ 1)))

/-- The amended condition for C2: the claim's condition plus the final
move's SAN beginning with a rook or queen letter (which the source
additionally requires, excluding promotion-delivered mates). -/
def backRankRecordCondition (s : BRState) : Bool :=
  (match s.gameData.moves.getLast? with
   | some lm => sanStartsRQ lm
   | none => false) && backRankClaimCondition s

/-- Concrete counterexample input for C2: White (the user) promotes
with e8=Q#, a verified back-rank checkmate: Black king g8 (sq 62) on
rank 7, the new white queen on e8 (sq 60) attacking along rank 7, the
escape squares f7/g7/h7 (53/54/55) all blocked by Black's own pawns.
The SAN move list is filler except for its length (odd: the user made
the final move) and its final entry, the only parts finish_game
reads. -/
def backRankPromotionBoard : FinalBoard :=
  { squares := [(62, ⟨PieceType.king, false⟩), (60, ⟨PieceType.queen, true⟩),
                (53, ⟨PieceType.pawn, false⟩), (54, ⟨PieceType.pawn, false⟩),
                (55, ⟨PieceType.pawn, false⟩), (6, ⟨PieceType.king, true⟩)]
    turn := false
    checkmate := true
    attackersFn := fun c sq => if c && (sq == 62) then [60] else [] }

/-- The C2 counterexample game record. -/
def backRankPromotionGame : GameData :=
  { metadata := { white := "Alice", black := "Bob", result := "1-0" }
    moves := List.replicate 20 "Nf3" ++ ["e8=Q#"]
    pgn := { hasMateChar := true, finalBoard := some backRankPromotionBoard } }

/-- The C2 counterexample analyzer state after start_game. -/
def backRankPromotionEx : BRState :=
  { username := "alice"
    gameData := backRankPromotionGame
    userIsWhite := true
    userIsBlack := false }

/-- A genuine rook-delivered back-rank mate (Re8#): the same position
with a white rook on e8 instead of a promoted queen; used to witness
the amended C2 condition positively. -/
def backRankRookBoard : FinalBoard :=
  { squares := [(62, ⟨PieceType.king, false⟩), (60, ⟨PieceType.rook, true⟩),
                (53, ⟨PieceType.pawn, false⟩), (54, ⟨PieceType.pawn, false⟩),
                (55, ⟨PieceType.pawn, false⟩), (6, ⟨PieceType.king, true⟩)]
    turn := false
    checkmate := true
    attackersFn := fun c sq => if c && (sq == 62) then [60] else [] }

/-- The rook-mate witness state for the amended C2 condition. -/
def backRankRookEx : BRState :=
  { username := "alice"
    gameData :=
      { metadata := { white := "Alice", black := "Bob", result := "1-0" }
        moves := List.replicate 20 "Nf3" ++ ["Re8#"]
        pgn := { hasMateChar := true, finalBoard := some backRankRookBoard } }
    userIsWhite := true
    userIsBlack := false }

end UnifiedBackRankMateAnalyzer

namespace UnifiedBestGameAnalyzer

/-- Invariant of the strict-greater best-game fold: after processing
the games in done, either nothing was processed, or the tracked best
is the first game attaining the maximum total. -/
def BestInv (s : BGState) (done : List GameRef) : Prop :=
  (s.bestRef = none ∧ s.bestScore = none ∧ done = []) ∨
  (∃ r pre post, s.bestRef = some r ∧ s.bestScore = some r.totalPoints ∧
     done = pre ++ r :: post ∧ (∀ x ∈ pre, x.totalPoints < r.totalPoints) ∧
     (∀ x ∈ done, x.totalPoints ≤ r.totalPoints))

end UnifiedBestGameAnalyzer

section Examples

open UnifiedQueenSacrificeAnalyzer UnifiedAnalyzer UnifiedKnightForkAnalyzer
open UnifiedWindmillAnalyzer UnifiedBestGameAnalyzer

/-- Balanced full-board piece counts (material advantage 0). -/
def evenCounts : PieceCounts :=
  { wp := 8, wn := 2, wb := 2, wr := 2, wq := 1
    bp := 8, bn := 2, bb := 2, br := 2, bq := 1 }

/-- C1 counterexample, game 1: the user's queen captures a pawn on d5
(sq 35), a rook recaptures, the user declines to take the queen back
(the sacrifice is recorded by the per-move hook), and the fourth move
is malformed, so the replay raises. -/
def qsErrorGame : DispatchGame :=
  { gameData :=
      { metadata := { white := "Alice", black := "Bob", result := "1-0" }
        moves := ["Qxd5", "Rxd5", "Nf3", "Zz9"]
        pgn := {} }
    plies :=
      [some { isCapture := true, movingPiece := some PieceType.queen,
              capturedPiece := some PieceType.pawn, toSquare := 35,
              counts := evenCounts, moveSan := "Qxd5" },
       some { isCapture := true, movingPiece := some PieceType.rook,
              capturedPiece := some PieceType.queen, toSquare := 35,
              counts := evenCounts, moveSan := "Rxd5" },
       some { isCapture := false, movingPiece := some PieceType.knight,
              toSquare := 21, counts := evenCounts, moveSan := "Nf3" },
       none] }

/-- C1 counterexample, game 2: a later well-formed game of the same
batch, fully processed after the failed one. -/
def qsOkGame : DispatchGame :=
  { gameData :=
      { metadata := { white := "Alice", black := "Dave", result := "1-0" }
        moves := ["e4", "e5"]
        pgn := {} }
    plies :=
      [some { movingPiece := some PieceType.pawn, toSquare := 28,
              counts := evenCounts, moveSan := "e4" },
       some { movingPiece := some PieceType.pawn, toSquare := 36,
              counts := evenCounts, moveSan := "e5" }] }

/-- An initial queen-sacrifice analyzer state for the user alice. -/
def qsInit : QSState := { username := "alice" }

/-- An initial knight-fork analyzer state for the user alice. -/
def kfInit : KFState := { username := "alice" }

/-- The error-free ply prefix of qsErrorGame, for the C1 witness. -/
def qsErrorPrefix : List PlyInfo :=
  [{ isCapture := true, movingPiece := some PieceType.queen,
     capturedPiece := some PieceType.pawn, toSquare := 35,
     counts := evenCounts, moveSan := "Qxd5" },
   { isCapture := true, movingPiece := some PieceType.rook,
     capturedPiece := some PieceType.queen, toSquare := 35,
     counts := evenCounts, moveSan := "Rxd5" },
   { isCapture := false, movingPiece := some PieceType.knight,
     toSquare := 21, counts := evenCounts, moveSan := "Nf3" }]

/-- C9 failing input, game A: the user's queen gives check on h5
(sq 39) without capturing, the opponent's king captures it, and the
next move is malformed, so the game is skipped with the pending
check-sacrifice state never cleared (finish_game is not reached and
start_game does not reset those fields). -/
def qsLeakGameA : DispatchGame :=
  { gameData :=
      { metadata := { white := "Alice", black := "Bob", result := "1-0" }
        moves := ["Qh5+", "Kxh5", "Zz9"]
        pgn := {} }
    plies :=
      [some { isCapture := false, movingPiece := some PieceType.queen,
              toSquare := 39, givesCheck := true,
              counts := evenCounts, moveSan := "Qh5+" },
       some { isCapture := true, movingPiece := some PieceType.king,
              capturedPiece := some PieceType.queen, toSquare := 39,
              counts := evenCounts, moveSan := "Kxh5" },
       none] }

/-- C9 failing input, game B: an unrelated later game in which the
stale check-sacrifice state from game A matures: the opponent's second
move is a capture landing on square 39 and the user's third move is
not a queen recapture, so a sacrifice Candidate built from game A's
data is recorded into game B. -/
def qsLeakGameB : DispatchGame :=
  { gameData :=
      { metadata := { white := "Alice", black := "Carol", result := "1-0" }
        moves := ["d3", "Bxh5", "g3"]
        pgn := {} }
    plies :=
      [some { isCapture := false, movingPiece := some PieceType.pawn,
              toSquare := 19, counts := evenCounts, moveSan := "d3" },
       some { isCapture := true, movingPiece := some PieceType.bishop,
              capturedPiece := some PieceType.pawn, toSquare := 39,
              counts := evenCounts, moveSan := "Bxh5" },
       some { isCapture := false, movingPiece := some PieceType.pawn,
              toSquare := 22, counts := evenCounts, moveSan := "g3" }] }

/-- C8 counterexample game: the user (White) wins and plays two
distinct qualifying knight forks. -/
def kfTwoForkGame : GameData :=
  { metadata := { white := "Alice", black := "Bob", result := "1-0" }
    moves := ["Nd4", "a6", "Nc6", "a5"]
    pgn := {} }

/-- First qualifying fork of the C8 counterexample: knight to d4
(sq 27) attacks the rook on e6 (sq 44) and the queen on c6 (sq 42). -/
def kfForkCtx1 : KFCtx :=
  { moveNumber := 1, isUserMove := true, movingPiece := some PieceType.knight
    toSquare := 27, attackedPieces := [(44, PieceType.rook), (42, PieceType.queen)]
    moveSan := "Nd4" }

/-- Second qualifying fork of the C8 counterexample: knight to c6
(sq 42) attacks the queen on d8 (sq 59) and the rook on a8 (sq 56). -/
def kfForkCtx2 : KFCtx :=
  { moveNumber := 3, isUserMove := true, movingPiece := some PieceType.knight
    toSquare := 42, attackedPieces := [(59, PieceType.queen), (56, PieceType.rook)]
    moveSan := "Nc6" }

/-- The started knight-fork state for the C8 counterexample. -/
def kfForkState : KFState :=
  UnifiedKnightForkAnalyzer.startGame { username := "alice" } kfTwoForkGame true false

/-- C10 witness game: a game the user won but whose Termination
header records a win on time. -/
def timeWinGame : GameData :=
  { metadata := { white := "Alice", black := "Bob", result := "1-0" }
    moves := ["Qxd5", "Rxd5", "Nf3"]
    pgn := { termination := some "Alice won on Time" } }

/-- C10 witness low-rating game: the user's own Elo header parses to
450, which is below 600. -/
def lowEloGame : GameData :=
  { metadata := { white := "Alice", black := "Bob", result := "1-0" }
    moves := ["Nd4", "a6"]
    pgn := { whiteElo := some 450, blackElo := some 1500 } }

/-- A queen-capture move context that would start a sacrifice were the
game not excluded (used by the C10 witness). -/
def qsCaptureCtx : MoveCtx :=
  mkMoveCtx { isCapture := true, movingPiece := some PieceType.queen,
              capturedPiece := some PieceType.pawn, toSquare := 35,
              counts := evenCounts, moveSan := "Qxd5" } 1 true

/-- A queen-takes-queen move context (used by the C3 witness). -/
def qsQxQCtx : MoveCtx :=
  mkMoveCtx { isCapture := true, movingPiece := some PieceType.queen,
              capturedPiece := some PieceType.queen, toSquare := 35,
              counts := evenCounts, moveSan := "Qxd5" } 1 true

/-- A started queen-sacrifice state for an included winning game
(used by the C3 and C4 witnesses). -/
def qsPlainState : QSState :=
  UnifiedQueenSacrificeAnalyzer.startGame qsInit
    { metadata := { white := "Alice", black := "Bob", result := "1-0" }
      moves := ["Qxd5", "Rxd5", "Nf3"]
      pgn := {} } true false

/-- C4 witness, 5-full-move case: sacrifice at ply 1 (full move 1) of
an 11-ply checkmate win (checkmate at full move 6). -/
def qsMateWindow5State : QSState :=
  { username := "alice"
    gameData :=
      { metadata := { white := "Alice", black := "Bob", result := "1-0" }
        moves := ["Qxd5", "Rxd5", "Nf3", "a6", "Ne5", "a5", "Nc4", "a4", "Ne3", "b6", "Rd8#"]
        pgn := { hasMateChar := true } }
    userIsWhite := true
    userWon := true
    isCheckmateWin := true
    potentialSacrifice := some
      { sacrificeSan := "Qxd5", sacrificeMoveNumber := 1, capturedSquare := 35
        capturedPieceType := some PieceType.pawn, capturedPieceValue := 1
        materialAdvantage := 0, queenPinned := false } }

/-- C4 witness, 6-full-move case: sacrifice at ply 1 of a 13-ply
checkmate win (checkmate at full move 7). -/
def qsMateWindow6State : QSState :=
  { username := "alice"
    gameData :=
      { metadata := { white := "Alice", black := "Bob", result := "1-0" }
        moves := ["Qxd5", "Rxd5", "Nf3", "a6", "Ne5", "a5", "Nc4", "a4", "Ne3", "b6", "Nc2", "b5", "Rd8#"]
        pgn := { hasMateChar := true } }
    userIsWhite := true
    userWon := true
    isCheckmateWin := true
    potentialSacrifice := some
      { sacrificeSan := "Qxd5", sacrificeMoveNumber := 1, capturedSquare := 35
        capturedPieceType := some PieceType.pawn, capturedPieceValue := 1
        materialAdvantage := 0, queenPinned := false } }

/-- C5 witness: an open windmill run with two rook checks, exactly one
capture in the whole run, and a discovered check, which must be
discarded. -/
def windmillOneCaptureState : WState :=
  { username := "alice"
    gameData :=
      { metadata := { white := "Alice", black := "Bob", result := "1-0" }
        moves := ["Rg7+", "Kh8", "Rxh7+"]
        pgn := {} }
    userIsWhite := true
    windmillSequence :=
      [{ halfMove := 10, move := "Rg7+", dest := some 54, isCapture := false
         isDiscovered := true, isUserMove := true },
       { halfMove := 11, move := "Kh8", dest := none, isCapture := false
         isDiscovered := false, isUserMove := false },
       { halfMove := 12, move := "Rxh7+", dest := some 55, isCapture := true
         isDiscovered := true, isUserMove := true }] }

/-- A non-continuing windmill context (a user bishop move), ending the
open run (used by the C5 witness). -/
def windmillBreakCtx : WCtx :=
  { moveNumber := 14, isUserMove := true, isCapture := false
    movingPiece := some PieceType.bishop, toSquare := 18, givesCheck := false
    legalRepliesAfter := 9, isCheckAfter := false, attackersAfterOnKing := []
    moveSan := "Bc3" }

/-- C6 witness scores: the maximum 40 is attained by the second and
fourth games; the second must be selected. -/
def bgExampleRefs : List UnifiedBestGameAnalyzer.GameRef :=
  [{ gameId := 0, totalPoints := 25, breakdown := [("checkmate_win", 25)], userIsWhite := true },
   { gameId := 1, totalPoints := 40, breakdown := [("queen_sacrifice", 30), ("checkmate_win", 10)], userIsWhite := true },
   { gameId := 2, totalPoints := 10, breakdown := [("knight_fork", 10)], userIsWhite := false },
   { gameId := 3, totalPoints := 40, breakdown := [("windmill", 40)], userIsWhite := true }]

/-- C7 witness fallback configuration: numeric point values for two
simple keys, a threshold table under game_ends_before_moves, and no
game_speed entry (the breakdown key derived from the threshold
table). -/
def fallbackCfgEx : UnifiedBestGameAnalyzer.FallbackConfig :=
  { eloThreshold := 600
    entries := [("checkmate_win", ConfigVal.num 50),
                ("hung_queen", ConfigVal.num 8),
                ("game_ends_before_moves", ConfigVal.table)] }

/-- C7 witness stored batch state: two scored games with breakdowns
holding a numeric key, a penalty key and the threshold-table-derived
game_speed key. -/
def bgFallbackState : UnifiedBestGameAnalyzer.BGState :=
  UnifiedBestGameAnalyzer.runScoring
    [{ gameId := 0, totalPoints := 27, breakdown := [("checkmate_win", 25), ("game_speed", 7), ("hung_queen", -5)], userIsWhite := true },
     { gameId := 1, totalPoints := 12, breakdown := [("checkmate_win", 25), ("game_speed", -13)], userIsWhite := true }]

end Examples

/-! Theorems.  Helper lemmas come first; each claim is settled by one
theorem carrying the claim id in its doc comment. -/

namespace UnifiedQueenSacrificeAnalyzer

theorem processMove_excluded (s : QSState) (ctx : MoveCtx)
    (h : s.excludeTimeWin = true ∨ s.eloTooLow = true) :
    processMove s ctx = s := by
  rcases h with h | h <;> simp [processMove, h]

theorem foldl_processMove_excluded (ctxs : List MoveCtx) (s : QSState)
    (h : s.excludeTimeWin = true ∨ s.eloTooLow = true) :
    List.foldl processMove s ctxs = s := by
  induction ctxs with
  | nil => rfl
  | cons c rest ih =>
      rw [List.foldl_cons, processMove_excluded s c h]
      exact ih

theorem recordSacrifice_refs_change (s : QSState)
    (h : (recordSacrifice s).allSacrificeRefs ≠ s.allSacrificeRefs) :
    ∃ ps, s.potentialSacrifice = some ps ∧ ps.materialAdvantage < 5 ∧
      ps.queenPinned = false ∧
      (recordSacrifice s).allSacrificeRefs = s.allSacrificeRefs ++ [mkSacRef s ps] := by
  cases hps : s.potentialSacrifice with
  | none => simp [recordSacrifice, hps] at h
  | some ps =>
      by_cases h5 : ps.materialAdvantage ≥ 5
      · simp [recordSacrifice, hps, h5] at h
      · by_cases hp : ps.queenPinned = true
        · simp [recordSacrifice, hps, h5, hp] at h
        · refine ⟨ps, rfl, by omega, by simpa using hp, ?_⟩
          simp [recordSacrifice, hps, h5, hp]

end UnifiedQueenSacrificeAnalyzer

namespace UnifiedKnightForkAnalyzer

theorem kf_processMove_excluded (s : KFState) (ctx : KFCtx)
    (h : s.excludeTimeWin = true ∨ s.eloTooLow = true) :
    processMove s ctx = s := by
  rcases h with h | h <;> simp [processMove, h]

theorem kf_foldl_processMove_excluded (ctxs : List KFCtx) (s : KFState)
    (h : s.excludeTimeWin = true ∨ s.eloTooLow = true) :
    List.foldl processMove s ctxs = s := by
  induction ctxs with
  | nil => rfl
  | cons c rest ih =>
      rw [List.foldl_cons, kf_processMove_excluded s c h]
      exact ih

theorem processMove_found (s : KFState) (ctx : KFCtx)
    (h : s.forkFoundInGame = true) :
    processMove s ctx = s := by
  unfold processMove
  split_ifs with h1 h2 <;> simp_all

theorem foldl_processMove_found (ctxs : List KFCtx) (s : KFState)
    (h : s.forkFoundInGame = true) :
    List.foldl processMove s ctxs = s := by
  induction ctxs with
  | nil => rfl
  | cons c rest ih =>
      rw [List.foldl_cons, processMove_found s c h]
      exact ih

theorem processMove_not_qualifying (s : KFState) (ctx : KFCtx)
    (h : kfQualifies s ctx = false) :
    processMove s ctx = s := by
  unfold processMove
  unfold kfQualifies at h
  split_ifs with h1 h2 h3 h4 h5 h6 <;> try rfl
  simp only [Bool.and_eq_false_iff] at h
  simp only [Bool.not_eq_true', Bool.not_eq_false] at h1 h2 h4
  rcases h with ((((h | h) | h) | h) | h) | h <;> simp_all

theorem processMove_qualifying (s : KFState) (ctx : KFCtx)
    (hf : s.forkFoundInGame = false) (h : kfQualifies s ctx = true) :
    processMove s ctx =
      { s with allForkRefs := s.allForkRefs ++ [mkForkRef s ctx]
               forkFoundInGame := true } := by
  unfold processMove
  unfold kfQualifies at h
  simp only [Bool.and_eq_true, decide_eq_true_eq] at h
  obtain ⟨⟨⟨⟨⟨⟨hw, ht⟩, he⟩, hu⟩, hk⟩, hlen⟩, hval⟩ := h
  simp only [Bool.not_eq_true'] at ht he
  split_ifs with h1 h2 h3 h4 h5 h6 <;> simp_all <;> omega

theorem foldl_processMove_first (ctxs : List KFCtx) :
    ∀ s : KFState, s.forkFoundInGame = false →
      (List.foldl processMove s ctxs).allForkRefs =
        s.allForkRefs ++
          (match ctxs.find? (fun c => kfQualifies s c) with
           | some c => [mkForkRef s c]
           | none => []) := by
  induction ctxs with
  | nil => intro s _; simp
  | cons c rest ih =>
      intro s hf
      by_cases hq : kfQualifies s c = true
      · rw [List.foldl_cons, processMove_qualifying s c hf hq,
            foldl_processMove_found rest _ rfl]
        simp [List.find?, hq]
      · have hq' : kfQualifies s c = false := by simpa using hq
        rw [List.foldl_cons, processMove_not_qualifying s c hq', ih s hf]
        simp [List.find?, hq']

end UnifiedKnightForkAnalyzer

section ClaimTheorems

open UnifiedQueenSacrificeAnalyzer UnifiedAnalyzer UnifiedKnightForkAnalyzer
open UnifiedWindmillAnalyzer UnifiedBestGameAnalyzer UnifiedBackRankMateAnalyzer

/-- C10: for every game whose Termination header contains the
substring "time" case-insensitively, and for every game whose user
rating header parses below 600, the queen-sacrifice and knight-fork
detectors record no Candidates during that game: their batch
accumulators after the game's per-move stream equal what they held
before it. -/
theorem time_win_and_low_elo_exclusions (g : GameData) (uw ub : Bool)
    (sQ : QSState) (sK : KFState) (qctxs : List MoveCtx) (kctxs : List KFCtx)
    (h : terminationMentionsTime g = true ∨ userEloBelow600 g uw = true) :
    (List.foldl UnifiedQueenSacrificeAnalyzer.processMove
        (UnifiedQueenSacrificeAnalyzer.startGame sQ g uw ub) qctxs).allSacrificeRefs
      = sQ.allSacrificeRefs
  ∧ (List.foldl UnifiedKnightForkAnalyzer.processMove
        (UnifiedKnightForkAnalyzer.startGame sK g uw ub) kctxs).allForkRefs
      = sK.allForkRefs := by
  constructor
  · rw [UnifiedQueenSacrificeAnalyzer.foldl_processMove_excluded qctxs _ (by exact h)]
    rfl
  · rw [UnifiedKnightForkAnalyzer.kf_foldl_processMove_excluded kctxs _ (by exact h)]
    rfl

/-- Witness for C10 at concrete inputs: a time-win game and a
below-600 game, each fed a move that would otherwise qualify, record
nothing. -/
theorem time_win_and_low_elo_exclusions_witness :
    (List.foldl UnifiedQueenSacrificeAnalyzer.processMove
        (UnifiedQueenSacrificeAnalyzer.startGame qsInit timeWinGame true false)
        [qsCaptureCtx]).allSacrificeRefs = []
  ∧ (List.foldl UnifiedKnightForkAnalyzer.processMove
        (UnifiedKnightForkAnalyzer.startGame kfInit lowEloGame true false)
        [kfForkCtx1]).allForkRefs = [] := by
  constructor
  · exact (time_win_and_low_elo_exclusions timeWinGame true false qsInit kfInit
      [qsCaptureCtx] [] (Or.inl (by decide))).1
  · exact (time_win_and_low_elo_exclusions lowEloGame true false qsInit kfInit
      [] [kfForkCtx1] (Or.inr (by decide))).2

/-- C8 counterexample: a won game with two distinct qualifying knight
forks yields only one Candidate in the batch accumulator, so the claim
that each instance is recorded fails at this input. -/
theorem knight_fork_second_instance_dropped :
    kfQualifies kfForkState kfForkCtx1 = true
  ∧ kfQualifies kfForkState kfForkCtx2 = true
  ∧ (List.foldl UnifiedKnightForkAnalyzer.processMove kfForkState
      [kfForkCtx1, kfForkCtx2]).allForkRefs.length = 1 := by
  refine ⟨by decide, by decide, by decide⟩

/-- C8 amended: the knight-fork detector keeps a Candidate only for
the FIRST qualifying fork instance of each game; after a started game
is streamed, the accumulator has grown by exactly the ref of the first
qualifying ply, or not at all when none qualifies. -/
theorem knight_fork_first_instance_only (s : KFState) (g : GameData)
    (uw ub : Bool) (ctxs : List KFCtx) :
    (List.foldl UnifiedKnightForkAnalyzer.processMove
        (UnifiedKnightForkAnalyzer.startGame s g uw ub) ctxs).allForkRefs
      = s.allForkRefs ++
          (match ctxs.find?
              (fun c => kfQualifies (UnifiedKnightForkAnalyzer.startGame s g uw ub) c) with
           | some c => [mkForkRef (UnifiedKnightForkAnalyzer.startGame s g uw ub) c]
           | none => []) := by
  exact UnifiedKnightForkAnalyzer.foldl_processMove_first ctxs _ rfl

end ClaimTheorems

namespace UnifiedBestGameAnalyzer

theorem trackGame_refs (s : BGState) (ref : GameRef) :
    (trackGame s ref).allGameRefs = s.allGameRefs ++ [ref] := by
  unfold trackGame
  split_ifs <;> rfl

theorem foldl_trackGame_refs (refs : List GameRef) :
    ∀ s : BGState, (List.foldl trackGame s refs).allGameRefs = s.allGameRefs ++ refs := by
  induction refs with
  | nil => intro s; simp
  | cons r rest ih =>
      intro s
      rw [List.foldl_cons, ih, trackGame_refs]
      simp

theorem trackGame_inv (s : BGState) (done : List GameRef) (ref : GameRef)
    (h : BestInv s done) : BestInv (trackGame s ref) (done ++ [ref]) := by
  unfold trackGame beatsBest
  rcases h with ⟨h1, h2, h3⟩ | ⟨r, pre, post, h1, h2, h3, h4, h5⟩
  · subst h3
    rw [h2]
    simp only [if_pos]
    right
    exact ⟨ref, [], [], rfl, rfl, rfl, by simp, by simp⟩
  · rw [h2]
    by_cases hgt : ref.totalPoints > r.totalPoints
    · simp only [decide_eq_true_eq, hgt, if_pos]
      right
      refine ⟨ref, done, [], rfl, rfl, by simp, ?_, ?_⟩
      · intro x hx
        exact lt_of_le_of_lt (h5 x hx) hgt
      · intro x hx
        rcases List.mem_append.mp hx with hx | hx
        · exact le_of_lt (lt_of_le_of_lt (h5 x hx) hgt)
        · simp at hx; subst hx; exact le_refl _
    · simp only [decide_eq_true_eq, hgt, if_neg, if_false]
      right
      refine ⟨r, pre, post ++ [ref], h1, rfl, ?_, h4, ?_⟩
      · rw [h3]; simp
      · intro x hx
        rcases List.mem_append.mp hx with hx | hx
        · exact h5 x hx
        · simp at hx; subst hx; omega

theorem foldl_trackGame_inv (refs : List GameRef) :
    ∀ (s : BGState) (done : List GameRef), BestInv s done →
      BestInv (List.foldl trackGame s refs) (done ++ refs) := by
  induction refs with
  | nil => intro s done h; simpa using h
  | cons r rest ih =>
      intro s done h
      rw [List.foldl_cons]
      have := ih (trackGame s r) (done ++ [r]) (trackGame_inv s done r h)
      simpa using this

end UnifiedBestGameAnalyzer

section ClaimTheorems2

open UnifiedQueenSacrificeAnalyzer UnifiedAnalyzer UnifiedKnightForkAnalyzer
open UnifiedWindmillAnalyzer UnifiedBestGameAnalyzer UnifiedBackRankMateAnalyzer

/-- C4: when a sacrifice is recorded in a checkmate win, the mate
window stored on the Candidate is the difference of the full-move
numbers (computed from 1-based ply indices): exactly 5 full moves
between sacrifice and mate stores the value 5, exactly 6 leaves it
unset. -/
theorem queen_sacrifice_mate_window (s : QSState) (ps : PotSac)
    (hps : s.potentialSacrifice = some ps)
    (hadv : ps.materialAdvantage < 5) (hpin : ps.queenPinned = false)
    (hcm : s.isCheckmateWin = true) (hmv : s.gameData.moves.isEmpty = false) :
    (((s.gameData.moves.length + 1) / 2 : Int) - ((ps.sacrificeMoveNumber + 1) / 2 : Int) = 5 →
      (recordSacrifice s).allSacrificeRefs = s.allSacrificeRefs ++ [mkSacRef s ps]
      ∧ (mkSacRef s ps).movesToMate = some 5)
  ∧ (((s.gameData.moves.length + 1) / 2 : Int) - ((ps.sacrificeMoveNumber + 1) / 2 : Int) = 6 →
      (recordSacrifice s).allSacrificeRefs = s.allSacrificeRefs ++ [mkSacRef s ps]
      ∧ (mkSacRef s ps).movesToMate = none) := by
  have hrec : (recordSacrifice s).allSacrificeRefs = s.allSacrificeRefs ++ [mkSacRef s ps] := by
    have h5 : ¬ ps.materialAdvantage ≥ 5 := by omega
    simp [recordSacrifice, hps, h5, hpin]
  have hcast : ∀ a b : Nat, ((a + 1) / 2 : Int) = (((a + 1) / 2 : Nat) : Int) ∧
      ((b + 1) / 2 : Int) = (((b + 1) / 2 : Nat) : Int) := by
    intro a b
    constructor <;> · rw [Int.ofNat_ediv]; norm_num
  constructor
  · intro h5
    refine ⟨hrec, ?_⟩
    unfold mkSacRef
    rw [(hcast s.gameData.moves.length ps.sacrificeMoveNumber).1,
        (hcast s.gameData.moves.length ps.sacrificeMoveNumber).2] at h5
    simp only [hcm, hmv, Bool.not_false, Bool.and_self, if_pos, h5]
    norm_num
  · intro h6
    refine ⟨hrec, ?_⟩
    unfold mkSacRef
    rw [(hcast s.gameData.moves.length ps.sacrificeMoveNumber).1,
        (hcast s.gameData.moves.length ps.sacrificeMoveNumber).2] at h6
    simp only [hcm, hmv, Bool.not_false, Bool.and_self, if_pos, h6]
    norm_num

/-- Witness for C4: a sacrifice at ply 1 of an 11-ply mate
(difference 5) stores the window 5; the same sacrifice in a 13-ply
mate (difference 6) stores nothing. -/
theorem queen_sacrifice_mate_window_witness :
    ((recordSacrifice qsMateWindow5State).allSacrificeRefs
        = qsMateWindow5State.allSacrificeRefs
            ++ [mkSacRef qsMateWindow5State
                  { sacrificeSan := "Qxd5", sacrificeMoveNumber := 1, capturedSquare := 35
                    capturedPieceType := some PieceType.pawn, capturedPieceValue := 1
                    materialAdvantage := 0, queenPinned := false }]
      ∧ (mkSacRef qsMateWindow5State
          { sacrificeSan := "Qxd5", sacrificeMoveNumber := 1, capturedSquare := 35
            capturedPieceType := some PieceType.pawn, capturedPieceValue := 1
            materialAdvantage := 0, queenPinned := false }).movesToMate = some 5)
  ∧ ((mkSacRef qsMateWindow6State
          { sacrificeSan := "Qxd5", sacrificeMoveNumber := 1, capturedSquare := 35
            capturedPieceType := some PieceType.pawn, capturedPieceValue := 1
            materialAdvantage := 0, queenPinned := false }).movesToMate = none) := by
  constructor
  · exact (queen_sacrifice_mate_window qsMateWindow5State _ rfl (by decide) rfl rfl
      rfl).1 (by decide)
  · exact ((queen_sacrifice_mate_window qsMateWindow6State _ rfl (by decide) rfl rfl
      rfl).2 (by decide)).2

/-- C6: best-game selection is the pure fold of the strict-greater
update over the scored games in ingestion order; the tracked best is
the FIRST game attaining the maximum total (every earlier game scores
strictly less, every game scores at most the best), and every game's
ref is stored. -/
theorem best_game_first_strict_max (refs : List GameRef) (h : refs ≠ []) :
    ∃ r pre post,
      (runScoring refs).bestRef = some r
      ∧ (runScoring refs).bestScore = some r.totalPoints
      ∧ refs = pre ++ r :: post
      ∧ (∀ x ∈ pre, x.totalPoints < r.totalPoints)
      ∧ (∀ x ∈ refs, x.totalPoints ≤ r.totalPoints)
      ∧ (runScoring refs).allGameRefs = refs := by
  have hinv := foldl_trackGame_inv refs {} [] (Or.inl ⟨rfl, rfl, rfl⟩)
  simp only [List.nil_append] at hinv
  rcases hinv with ⟨_, _, h3⟩ | ⟨r, pre, post, h1, h2, h3, h4, h5⟩
  · exact absurd h3 h
  · refine ⟨r, pre, post, h1, h2, h3, h4, h5, ?_⟩
    have := foldl_trackGame_refs refs ({} : BGState)
    simpa [runScoring] using this

/-- Witness for C6 at a concrete batch where two games tie at the
maximum score 40: the earlier one (gameId 1) is selected. -/
theorem best_game_first_strict_max_witness :
    ∃ r pre post,
      (runScoring bgExampleRefs).bestRef = some r
      ∧ (runScoring bgExampleRefs).bestScore = some r.totalPoints
      ∧ bgExampleRefs = pre ++ r :: post
      ∧ (∀ x ∈ pre, x.totalPoints < r.totalPoints)
      ∧ (∀ x ∈ bgExampleRefs, x.totalPoints ≤ r.totalPoints)
      ∧ (runScoring bgExampleRefs).allGameRefs = bgExampleRefs :=
  best_game_first_strict_max bgExampleRefs (by decide)

end ClaimTheorems2

namespace UnifiedQueenSacrificeAnalyzer

theorem qsBlock6_refs (s : QSState) (ctx : MoveCtx)
    (h : (qsBlock6 s ctx).allSacrificeRefs ≠ s.allSacrificeRefs) :
    RecordedFrom s (qsBlock6 s ctx) := by
  by_cases c1 : (ctx.isUserMove && s.checkSacrificeRecaptured
      && natOptTruthy s.checkSacrificeRecaptureMove) = true
  · by_cases c2 : (ctx.moveNumber == s.checkSacrificeRecaptureMove.getD 0 + 1) = true
    · by_cases c3 : (ctx.isCapture && ctx.capturedPiece == some PieceType.queen) = true
      · exact absurd (by simp [qsBlock6, c1, c2, c3, clearCheckSac]) h
      · simp only [Bool.not_eq_true] at c3
        cases hpcs : s.potentialCheckSacrifice with
        | none => exact absurd (by simp [qsBlock6, c1, c2, c3, hpcs, clearCheckSac]) h
        | some pcs =>
          have hq : qsBlock6 s ctx
              = clearCheckSac (recordSacrifice
                  { s with potentialSacrifice := some (potFromCheckSac pcs) }) := by
            simp [qsBlock6, c1, c2, c3, hpcs]
          rw [hq] at h ⊢
          have h2 : (recordSacrifice
              { s with potentialSacrifice := some (potFromCheckSac pcs) }).allSacrificeRefs
              ≠ ({ s with potentialSacrifice := some (potFromCheckSac pcs) } : QSState).allSacrificeRefs := h
          obtain ⟨ps, hpsome, hadv, hpin, heq⟩ := recordSacrifice_refs_change _ h2
          have hpseq : potFromCheckSac pcs = ps := by
            simpa using hpsome
          subst hpseq
          exact ⟨potFromCheckSac pcs, hadv, hpin, heq, Or.inr ⟨pcs, hpcs, rfl⟩⟩
    · exact absurd (by simp [qsBlock6, c1, c2]) h
  · exact absurd (by simp [qsBlock6, c1]) h

theorem qsBlock5_refs (s : QSState) (ctx : MoveCtx)
    (h : (qsBlock5 s ctx).allSacrificeRefs ≠ s.allSacrificeRefs) :
    RecordedFrom s (qsBlock5 s ctx) := by
  cases hu : ctx.isUserMove with
  | true =>
      have hq : qsBlock5 s ctx = qsBlock6 s ctx := by
        cases hpcs : s.potentialCheckSacrifice <;> simp [qsBlock5, hu, hpcs]
      rw [hq] at h ⊢
      exact qsBlock6_refs s ctx h
  | false =>
      cases hpcs : s.potentialCheckSacrifice with
      | none =>
          have hq : qsBlock5 s ctx = qsBlock6 s ctx := by simp [qsBlock5, hu, hpcs]
          rw [hq] at h ⊢
          exact qsBlock6_refs s ctx h
      | some pcs =>
          by_cases c2 : (ctx.moveNumber == pcs.sacrificeMoveNumber + 1
              && ctx.toSquare == pcs.queenSquare && ctx.isCapture) = true
          · exact absurd (by simp [qsBlock5, hu, hpcs, c2]) h
          · have hq : qsBlock5 s ctx
                = qsBlock6 { s with potentialCheckSacrifice := none } ctx := by
              simp only [Bool.not_eq_true] at c2
              simp [qsBlock5, hu, hpcs, c2]
            rw [hq] at h ⊢
            obtain ⟨ps, hadv, hpin, heq, hsrc⟩ := qsBlock6_refs _ ctx h
            refine ⟨ps, hadv, hpin, heq, ?_⟩
            rcases hsrc with hsrc | ⟨pcs', hpcs', _⟩
            · exact Or.inl hsrc
            · exact absurd hpcs' (by simp)

theorem qsBlock4_refs (s : QSState) (ctx : MoveCtx)
    (h : (qsBlock4 s ctx).allSacrificeRefs ≠ s.allSacrificeRefs) :
    RecordedFrom s (qsBlock4 s ctx) := by
  by_cases c1 : (ctx.isUserMove && !ctx.isCapture) = true
  · by_cases c2 : (ctx.movingPiece == some PieceType.queen && ctx.givesCheck) = true
    · exact absurd (by simp [qsBlock4, c1, c2]) h
    · have hq : qsBlock4 s ctx = qsBlock5 s ctx := by simp [qsBlock4, c1, c2]
      rw [hq] at h ⊢
      exact qsBlock5_refs s ctx h
  · have hq : qsBlock4 s ctx = qsBlock5 s ctx := by simp [qsBlock4, c1]
    rw [hq] at h ⊢
    exact qsBlock5_refs s ctx h

theorem qsBlock3_refs (s : QSState) (ctx : MoveCtx)
    (h : (qsBlock3 s ctx).allSacrificeRefs ≠ s.allSacrificeRefs) :
    RecordedFrom s (qsBlock3 s ctx) := by
  by_cases c1 : (ctx.isUserMove && s.ourQueenWasRecaptured
      && natOptTruthy s.recaptureMoveNumber) = true
  · by_cases c2 : (ctx.moveNumber == s.recaptureMoveNumber.getD 0 + 1) = true
    · by_cases c3 : (ctx.isCapture && ctx.capturedPiece == some PieceType.queen) = true
      · exact absurd (by simp [qsBlock3, c1, c2, c3]) h
      · by_cases hpot : s.potentialSacrifice.isSome = true
        · have hq : qsBlock3 s ctx
              = { recordSacrifice s with ourQueenWasRecaptured := false
                                         recaptureMoveNumber := none } := by
            simp [qsBlock3, c1, c2, c3, hpot]
          rw [hq] at h ⊢
          have h2 : (recordSacrifice s).allSacrificeRefs ≠ s.allSacrificeRefs := h
          obtain ⟨ps, hpsome, hadv, hpin, heq⟩ := recordSacrifice_refs_change s h2
          exact ⟨ps, hadv, hpin, heq, Or.inl hpsome⟩
        · exact absurd (by simp [qsBlock3, c1, c2, c3, hpot]) h
    · by_cases c4 : (s.recaptureMoveNumber.getD 0 + 1 < ctx.moveNumber)
      · by_cases hpot : s.potentialSacrifice.isSome = true
        · have hq : qsBlock3 s ctx
              = { recordSacrifice s with ourQueenWasRecaptured := false
                                         recaptureMoveNumber := none } := by
            simp [qsBlock3, c1, c2, c4, hpot]
          rw [hq] at h ⊢
          have h2 : (recordSacrifice s).allSacrificeRefs ≠ s.allSacrificeRefs := h
          obtain ⟨ps, hpsome, hadv, hpin, heq⟩ := recordSacrifice_refs_change s h2
          exact ⟨ps, hadv, hpin, heq, Or.inl hpsome⟩
        · exact absurd (by simp [qsBlock3, c1, c2, c4, hpot]) h
      · have hq : qsBlock3 s ctx = qsBlock4 s ctx := by simp [qsBlock3, c1, c2, c4]
        rw [hq] at h ⊢
        exact qsBlock4_refs s ctx h
  · have hq : qsBlock3 s ctx = qsBlock4 s ctx := by simp [qsBlock3, c1]
    rw [hq] at h ⊢
    exact qsBlock4_refs s ctx h

theorem qsBlock2_refs (s : QSState) (ctx : MoveCtx)
    (h : (qsBlock2 s ctx).allSacrificeRefs ≠ s.allSacrificeRefs) :
    RecordedFrom s (qsBlock2 s ctx) := by
  cases hu : ctx.isUserMove with
  | true =>
      have hq : qsBlock2 s ctx = qsBlock3 s ctx := by
        cases hps : s.potentialSacrifice <;> simp [qsBlock2, hu, hps]
      rw [hq] at h ⊢
      exact qsBlock3_refs s ctx h
  | false =>
      cases hps : s.potentialSacrifice with
      | none =>
          have hq : qsBlock2 s ctx = qsBlock3 s ctx := by simp [qsBlock2, hu, hps]
          rw [hq] at h ⊢
          exact qsBlock3_refs s ctx h
      | some ps =>
          by_cases c2 : (ctx.moveNumber == ps.sacrificeMoveNumber + 1) = true
          · by_cases c3 : (ctx.toSquare == ps.capturedSquare) = true
            · exact absurd (by simp [qsBlock2, hu, hps, c2, c3]) h
            · simp only [Bool.not_eq_true] at c3
              exact absurd (by simp [qsBlock2, hu, hps, c2, c3]) h
          · simp only [Bool.not_eq_true] at c2
            have hq : qsBlock2 s ctx
                = qsBlock3 { s with potentialSacrifice := none
                                    ourQueenWasRecaptured := false } ctx := by
              simp [qsBlock2, hu, hps, c2]
            rw [hq] at h ⊢
            obtain ⟨ps', hadv, hpin, heq, hsrc⟩ := qsBlock3_refs _ ctx h
            refine ⟨ps', hadv, hpin, heq, ?_⟩
            rcases hsrc with hsrc | ⟨pcs, hpcs, hps'⟩
            · exact absurd hsrc (by simp)
            · exact Or.inr ⟨pcs, hpcs, hps'⟩

theorem qsBlock1_refs (s : QSState) (ctx : MoveCtx)
    (h : (qsBlock1 s ctx).allSacrificeRefs ≠ s.allSacrificeRefs) :
    RecordedFrom s (qsBlock1 s ctx) := by
  by_cases c1 : (ctx.isUserMove && ctx.isCapture) = true
  · by_cases c2 : (ctx.movingPiece == some PieceType.queen) = true
    · by_cases c3 : (ctx.capturedPiece == some PieceType.queen) = true
      · exact absurd (by simp [qsBlock1, c1, c2, c3]) h
      · exact absurd (by simp [qsBlock1, c1, c2, c3]) h
    · have hq : qsBlock1 s ctx = qsBlock2 s ctx := by simp [qsBlock1, c1, c2]
      rw [hq] at h ⊢
      exact qsBlock2_refs s ctx h
  · have hq : qsBlock1 s ctx = qsBlock2 s ctx := by simp [qsBlock1, c1]
    rw [hq] at h ⊢
    exact qsBlock2_refs s ctx h

theorem processMove_refs (s : QSState) (ctx : MoveCtx)
    (h : (processMove s ctx).allSacrificeRefs ≠ s.allSacrificeRefs) :
    RecordedFrom s (processMove s ctx) := by
  by_cases c : (!s.userWon || s.excludeTimeWin || s.eloTooLow || s.sacrificeFound) = true
  · exact absurd (by simp [processMove, c]) h
  · have hq : processMove s ctx = qsBlock1 s ctx := by simp [processMove, c]
    rw [hq] at h ⊢
    exact qsBlock1_refs s ctx h

end UnifiedQueenSacrificeAnalyzer

section ClaimTheorems3

open UnifiedQueenSacrificeAnalyzer UnifiedAnalyzer

/-- C3: the queen-sacrifice detector's exclusions.  (i) A user queen
move capturing the opponent's queen leaves the analyzer state
untouched, so such a trade is never a sacrifice.  (ii) Whenever a ply
grows the batch accumulator, the potential it consumed carried a
material advantage below 5 pawn-units and an unpinned queen.  (iii)
The potential built at a user queen capture stores exactly the
material advantage computed from the board before the move and the
pin status of the origin square at that moment, so (ii) speaks about
the moment of the sacrifice move. -/
theorem queen_sacrifice_exclusions (s : QSState) (ctx : MoveCtx) :
    (ctx.isUserMove = true → ctx.isCapture = true →
      ctx.movingPiece = some PieceType.queen → ctx.capturedPiece = some PieceType.queen →
      processMove s ctx = s)
  ∧ ((processMove s ctx).allSacrificeRefs ≠ s.allSacrificeRefs →
      RecordedFrom s (processMove s ctx))
  ∧ (ctx.isUserMove = true → ctx.isCapture = true →
      ctx.movingPiece = some PieceType.queen → ctx.capturedPiece ≠ some PieceType.queen →
      s.userWon = true → s.excludeTimeWin = false → s.eloTooLow = false →
      s.sacrificeFound = false →
      (processMove s ctx).potentialSacrifice = some (mkPotential s ctx)
      ∧ (mkPotential s ctx).materialAdvantage
          = calculateMaterialAdvantage ctx.counts s.userIsWhite
      ∧ (mkPotential s ctx).queenPinned = ctx.queenPinned) := by
  refine ⟨?_, processMove_refs s ctx, ?_⟩
  · intro hu hc hm hcap
    by_cases g : (!s.userWon || s.excludeTimeWin || s.eloTooLow || s.sacrificeFound) = true
    · simp [processMove, g]
    · simp [processMove, g, qsBlock1, hu, hc, hm, hcap]
  · intro hu hc hm hcap hw ht he hf
    have hcap' : (ctx.capturedPiece == some PieceType.queen) = false := by
      simpa using hcap
    have g : (!s.userWon || s.excludeTimeWin || s.eloTooLow || s.sacrificeFound) = false := by
      simp [hw, ht, he, hf]
    refine ⟨?_, rfl, rfl⟩
    simp [processMove, g, qsBlock1, hu, hc, hm, hcap']

/-- Witness for C3: a concrete queen-takes-queen ply leaves a started
state untouched, and a concrete queen-takes-pawn ply installs the
potential with the advantage and pin of that moment. -/
theorem queen_sacrifice_exclusions_witness :
    processMove qsPlainState qsQxQCtx = qsPlainState
  ∧ (processMove qsPlainState qsCaptureCtx).potentialSacrifice
      = some (mkPotential qsPlainState qsCaptureCtx) := by
  constructor
  · exact (queen_sacrifice_exclusions qsPlainState qsQxQCtx).1 rfl rfl rfl rfl
  · exact ((queen_sacrifice_exclusions qsPlainState qsCaptureCtx).2.2 rfl rfl rfl
      (by decide) rfl rfl rfl rfl).1

end ClaimTheorems3

theorem countP_filter_le {α : Type} (l : List α) (p q : α → Bool) :
    (l.filter q).countP p ≤ l.countP p := by
  induction l with
  | nil => simp
  | cons a t ih =>
      by_cases hq : q a = true
      · simp only [List.filter_cons, hq, if_pos, List.countP_cons]
        omega
      · simp only [List.filter_cons, hq, Bool.false_eq_true, if_false, List.countP_cons]
        omega

namespace UnifiedWindmillAnalyzer

theorem rookCaptureCount_le (seq : List WEntry) :
    rookCaptureCount seq ≤ captureCount seq := by
  unfold rookCaptureCount captureCount rookMovesOf
  exact countP_filter_le seq _ _

theorem checkAndRecord_grow (s : WState)
    (h : (checkAndRecordWindmill s).allWindmillRefs ≠ s.allWindmillRefs) :
    (checkAndRecordWindmill s).allWindmillRefs
        = s.allWindmillRefs ++ [mkWindmillRef s (rookCaptureCount s.windmillSequence)]
    ∧ minCaptures ≤ rookCaptureCount s.windmillSequence
    ∧ minDiscoveredChecks ≤ rookDiscoveredCount s.windmillSequence := by
  by_cases h1 : s.windmillSequence.length < 3
  · exact absurd (by simp [checkAndRecordWindmill, h1]) h
  · by_cases h2 : (rookMovesOf s.windmillSequence).length < 2
    · exact absurd (by simp [checkAndRecordWindmill, h1, h2]) h
    · by_cases h3 : rookCaptureCount s.windmillSequence < minCaptures
      · exact absurd (by simp [checkAndRecordWindmill, h1, h2, h3]) h
      · by_cases h4 : rookDiscoveredCount s.windmillSequence < minDiscoveredChecks
        · exact absurd (by simp [checkAndRecordWindmill, h1, h2, h3, h4]) h
        · exact ⟨by simp [checkAndRecordWindmill, h1, h2, h3, h4], by omega, by omega⟩

theorem finishGame_grow (s : WState)
    (h : (finishGame s).allWindmillRefs ≠ s.allWindmillRefs) :
    (finishGame s).allWindmillRefs
        = s.allWindmillRefs ++ [mkWindmillRef s (rookCaptureCount s.windmillSequence)]
    ∧ minCaptures ≤ rookCaptureCount s.windmillSequence
    ∧ minDiscoveredChecks ≤ rookDiscoveredCount s.windmillSequence := by
  by_cases h1 : 3 ≤ s.windmillSequence.length
  · by_cases h2 : 2 ≤ (rookMovesOf s.windmillSequence).length
    · by_cases h3 : minCaptures ≤ rookCaptureCount s.windmillSequence
      · by_cases h4 : minDiscoveredChecks ≤ rookDiscoveredCount s.windmillSequence
        · exact ⟨by simp [finishGame, h1, h2, h3, h4], h3, h4⟩
        · exact absurd (by simp [finishGame, h1, h2, h3, h4]) h
      · exact absurd (by simp [finishGame, h1, h2, h3]) h
    · exact absurd (by simp [finishGame, h1, h2]) h
  · exact absurd (by simp [finishGame, h1]) h

theorem processMove_refs_grow (s : WState) (ctx : WCtx)
    (h : (processMove s ctx).allWindmillRefs ≠ s.allWindmillRefs) :
    minCaptures ≤ rookCaptureCount s.windmillSequence
    ∧ minDiscoveredChecks ≤ rookDiscoveredCount s.windmillSequence := by
  by_cases c0 : (s.skipGame || s.windmillFound) = true
  · exact absurd (by simp [processMove, c0]) h
  · by_cases c1 : isRookCheck ctx = true
    · by_cases c2 : kingIsTrapped ctx = true
      · by_cases c3 : s.windmillSequence.isEmpty = true
        · exact absurd (by simp [processMove, c0, c1, c2, c3]) h
        · exact absurd (by simp [processMove, c0, c1, c2, c3]) h
      · by_cases c3 : s.windmillSequence.isEmpty = true
        · exact absurd (by simp [processMove, c0, c1, c2, c3]) h
        · have hq : (processMove s ctx).allWindmillRefs
              = (checkAndRecordWindmill s).allWindmillRefs := by
            simp [processMove, c0, c1, c2, c3]
          rw [hq] at h
          exact (checkAndRecord_grow s h).2
    · by_cases c4 : isKingMove ctx = true
      · by_cases c3 : s.windmillSequence.isEmpty = true
        · exact absurd (by simp [processMove, c0, c1, c4, c3]) h
        · exact absurd (by simp [processMove, c0, c1, c4, c3]) h
      · by_cases c3 : s.windmillSequence.isEmpty = true
        · exact absurd (by simp [processMove, c0, c1, c4, c3]) h
        · have hq : (processMove s ctx).allWindmillRefs
              = (checkAndRecordWindmill s).allWindmillRefs := by
            simp [processMove, c0, c1, c4, c3]
          rw [hq] at h
          exact (checkAndRecord_grow s h).2

end UnifiedWindmillAnalyzer

section ClaimTheorems4

open UnifiedWindmillAnalyzer

/-- C5: every windmill run that reaches the batch accumulator (via
the per-move finalization or the finish hook) contains at least
MIN_CAPTURES = 2 captures among its rook moves — hence at least 2
captures in the run — and at least MIN_DISCOVERED_CHECKS = 1
discovered check; a run with exactly 1 capture is always discarded,
discovered checks or not. -/
theorem windmill_run_requirements (s : WState) (ctx : WCtx) :
    ((checkAndRecordWindmill s).allWindmillRefs ≠ s.allWindmillRefs →
      (checkAndRecordWindmill s).allWindmillRefs
          = s.allWindmillRefs ++ [mkWindmillRef s (rookCaptureCount s.windmillSequence)]
      ∧ minCaptures ≤ rookCaptureCount s.windmillSequence
      ∧ minDiscoveredChecks ≤ rookDiscoveredCount s.windmillSequence
      ∧ 2 ≤ captureCount s.windmillSequence)
  ∧ ((finishGame s).allWindmillRefs ≠ s.allWindmillRefs →
      minCaptures ≤ rookCaptureCount s.windmillSequence
      ∧ minDiscoveredChecks ≤ rookDiscoveredCount s.windmillSequence
      ∧ 2 ≤ captureCount s.windmillSequence)
  ∧ ((UnifiedWindmillAnalyzer.processMove s ctx).allWindmillRefs ≠ s.allWindmillRefs →
      minCaptures ≤ rookCaptureCount s.windmillSequence
      ∧ minDiscoveredChecks ≤ rookDiscoveredCount s.windmillSequence)
  ∧ (captureCount s.windmillSequence = 1 →
      (checkAndRecordWindmill s).allWindmillRefs = s.allWindmillRefs
      ∧ (finishGame s).allWindmillRefs = s.allWindmillRefs
      ∧ (UnifiedWindmillAnalyzer.processMove s ctx).allWindmillRefs = s.allWindmillRefs) := by
  have hle := rookCaptureCount_le s.windmillSequence
  refine ⟨?_, ?_, ?_, ?_⟩
  · intro h
    obtain ⟨heq, hcap, hdisc⟩ := checkAndRecord_grow s h
    exact ⟨heq, hcap, hdisc, le_trans hcap hle⟩
  · intro h
    obtain ⟨_, hcap, hdisc⟩ := finishGame_grow s h
    exact ⟨hcap, hdisc, le_trans hcap hle⟩
  · intro h
    exact processMove_refs_grow s ctx h
  · intro h1
    refine ⟨?_, ?_, ?_⟩
    · by_cases hch : (checkAndRecordWindmill s).allWindmillRefs = s.allWindmillRefs
      · exact hch
      · have := (checkAndRecord_grow s hch).2.1
        unfold minCaptures at this
        omega
    · by_cases hch : (finishGame s).allWindmillRefs = s.allWindmillRefs
      · exact hch
      · have := (finishGame_grow s hch).2.1
        unfold minCaptures at this
        omega
    · by_cases hch : (UnifiedWindmillAnalyzer.processMove s ctx).allWindmillRefs
          = s.allWindmillRefs
      · exact hch
      · have := (processMove_refs_grow s ctx hch).1
        unfold minCaptures at this
        omega

/-- Witness for C5 at a concrete open run with two rook checks, a
discovered check, and exactly one capture: the per-move finalization,
the record check and the finish hook all leave the accumulator
unchanged. -/
theorem windmill_run_requirements_witness :
    (checkAndRecordWindmill windmillOneCaptureState).allWindmillRefs
        = windmillOneCaptureState.allWindmillRefs
    ∧ (UnifiedWindmillAnalyzer.finishGame windmillOneCaptureState).allWindmillRefs
        = windmillOneCaptureState.allWindmillRefs
    ∧ (UnifiedWindmillAnalyzer.processMove windmillOneCaptureState
        windmillBreakCtx).allWindmillRefs
        = windmillOneCaptureState.allWindmillRefs := by
  have h := (windmill_run_requirements windmillOneCaptureState windmillBreakCtx).2.2.2
    (by decide)
  exact ⟨h.1, h.2.1, h.2.2⟩

end ClaimTheorems4

namespace UnifiedAnalyzer

open UnifiedQueenSacrificeAnalyzer

theorem qsReplay_error (active uw : Bool) (pre : List PlyInfo) :
    ∀ (s : QSState) (rest : List (Option PlyInfo)) (i : Nat),
      qsReplay active uw s (pre.map some ++ none :: rest) i
        = (qsFoldPlies active uw s pre i, false) := by
  induction pre with
  | nil => intro s rest i; rfl
  | cons p t ih =>
      intro s rest i
      simp only [List.map_cons, List.cons_append, qsReplay, qsFoldPlies]
      exact ih _ rest (i + 1)

end UnifiedAnalyzer

section ClaimTheorems5

open UnifiedQueenSacrificeAnalyzer UnifiedAnalyzer

/-- C1 counterexample: a batch of two games in which the first game
records a queen-sacrifice Candidate at ply 3 and then fails to parse
at ply 4.  The dispatch engine skips the game, yet the Candidate from
the failed game remains in the detector's batch accumulator (its
game ref is the failed game, Alice vs Bob), so the claim that no
Candidate is left from moves processed before the failure is false at
this input. -/
theorem dispatch_error_candidate_remains :
    (analyzeGames "alice" qsInit [qsErrorGame, qsOkGame]).allSacrificeRefs.length = 1
  ∧ ((analyzeGames "alice" qsInit
        [qsErrorGame, qsOkGame]).allSacrificeRefs.getD 0 default).gameData.metadata.black
      = "Bob"
  ∧ ((analyzeGames "alice" qsInit
        [qsErrorGame, qsOkGame]).allSacrificeRefs.getD 0 default).sacrificeMoveNumber = 1 := by
  refine ⟨by decide, by decide, by decide⟩

/-- C1 amended: when a game's replay raises at some ply, the dispatch
engine skips the game — the finish hook is not called and the
analyzer state is exactly the fold of the per-move hook over the
error-free prefix, so Candidates recorded by per-move hooks before
the failure remain in the batch accumulator — and the rest of the
batch is still processed in order. -/
theorem dispatch_error_skip (username : String) (s : QSState) (dg : DispatchGame)
    (pre : List PlyInfo) (rest : List (Option PlyInfo))
    (hplies : dg.plies = pre.map some ++ none :: rest)
    (huser : (userWhiteFor username dg || userBlackFor username dg) = true)
    (hhb : isHyperBullet dg.gameData.metadata.timeControl = false)
    (hmv : dg.gameData.moves.isEmpty = false) :
    analyzeGame username s dg
      = qsFoldPlies (activeFor username dg) (userWhiteFor username dg)
          (UnifiedQueenSacrificeAnalyzer.startGame s dg.gameData
            (userWhiteFor username dg) (userBlackFor username dg)) pre 0
  ∧ ∀ gs, analyzeGames username s (dg :: gs)
      = analyzeGames username (analyzeGame username s dg) gs := by
  constructor
  · have hnm : (!userWhiteFor username dg && !userBlackFor username dg) = false := by
      cases hw : userWhiteFor username dg <;> cases hb : userBlackFor username dg <;>
        simp_all
    simp only [analyzeGame, hnm, Bool.false_eq_true, if_false, hhb, hmv, hplies,
      qsReplay_error]
  · intro gs
    rfl

/-- Witness for C1's amended statement at the concrete failing game:
the state after dispatching it equals the fold over the three
well-formed plies (no finish hook), and batch processing continues. -/
theorem dispatch_error_skip_witness :
    analyzeGame "alice" qsInit qsErrorGame
      = qsFoldPlies (activeFor "alice" qsErrorGame) (userWhiteFor "alice" qsErrorGame)
          (UnifiedQueenSacrificeAnalyzer.startGame qsInit qsErrorGame.gameData
            (userWhiteFor "alice" qsErrorGame) (userBlackFor "alice" qsErrorGame))
          qsErrorPrefix 0
  ∧ ∀ gs, analyzeGames "alice" qsInit (qsErrorGame :: gs)
      = analyzeGames "alice" (analyzeGame "alice" qsInit qsErrorGame) gs :=
  dispatch_error_skip "alice" qsInit qsErrorGame qsErrorPrefix [] rfl (by decide) rfl rfl

/-- C9 at its failing input: game A is aborted by a parse error while
a check-sacrifice is pending; start_game does not reset
potential_check_sacrifice, check_sacrifice_recaptured or
check_sacrifice_recapture_move, so in the very next game the stale
state matures and a sacrifice Candidate carrying game A's data
(SAN Qh5+ from ply 1 of game A) is recorded against game B — while
game B processed alone records nothing.  Per-game state thus leaks
across games, contradicting the claimed invariant. -/
theorem queen_sacrifice_state_leak_at_failing_input :
    (analyzeGames "alice" qsInit [qsLeakGameA, qsLeakGameB]).allSacrificeRefs.length = 1
  ∧ ((analyzeGames "alice" qsInit
        [qsLeakGameA, qsLeakGameB]).allSacrificeRefs.getD 0 default).sacrificeSan = "Qh5+"
  ∧ ((analyzeGames "alice" qsInit
        [qsLeakGameA, qsLeakGameB]).allSacrificeRefs.getD 0 default).gameData.metadata.black
      = "Carol"
  ∧ (analyzeGames "alice" qsInit [qsLeakGameB]).allSacrificeRefs.length = 0 := by
  refine ⟨by decide, by decide, by decide, by decide⟩

end ClaimTheorems5

theorem countP_add_countP_not {α : Type} (l : List α) (p : α → Bool) :
    l.countP p + l.countP (fun a => !(p a)) = l.length := by
  induction l with
  | nil => simp
  | cons a t ih =>
      by_cases h : p a = true <;> simp [List.countP_cons, h] <;> omega

namespace UnifiedBackRankMateAnalyzer

theorem escapeTargets_len_pos (kf er : Nat) (h : kf < 8) :
    0 < (escapeTargets kf er).length := by
  interval_cases kf <;> simp [escapeTargets]

theorem blocked_add_open (b : FinalBoard) (kf er : Nat) (mw : Bool) :
    escapeBlockedCount b kf er mw + escapeOpenCount b kf er mw
      = (escapeTargets kf er).length := by
  unfold escapeBlockedCount escapeOpenCount
  have hfun : (fun sq => match b.pieceAt sq with
      | some p => !(p.isWhite == mw)
      | none => true)
      = (fun sq => !((fun t => match b.pieceAt t with
          | some p => p.isWhite == mw
          | none => false) sq)) := by
    funext sq
    cases hsq : b.pieceAt sq <;> simp [hsq]
  rw [hfun]
  exact countP_add_countP_not (escapeTargets kf er) _

theorem isKingProperlyBlocked_iff (fb : FinalBoard) (mw : Bool) (ks : Nat)
    (hks : fb.kingSq mw = some ks) (hr : ks / 8 = backRankHomeRank mw) :
    (isKingProperlyBlocked fb mw = true
      ↔ escapeOpenCount fb (ks % 8) (backRankEscRank mw) mw ≤ 1) := by
  have hkf : ks % 8 < 8 := Nat.mod_lt _ (by norm_num)
  unfold isKingProperlyBlocked
  rw [hks]
  cases mw with
  | true =>
      have hr' : ks / 8 = 0 := hr
      have hpos := escapeTargets_len_pos (ks % 8) 1 hkf
      have hsum := blocked_add_open fb (ks % 8) 1 true
      simp only [hr', backRankEscRank, if_pos]
      simp only [bne_self_eq_false, Bool.false_eq_true, if_false,
        Bool.and_eq_true, decide_eq_true_eq]
      constructor
      · intro ⟨h1, _⟩; omega
      · intro h1; exact ⟨by omega, by omega⟩
  | false =>
      have hr' : ks / 8 = 7 := hr
      have hpos := escapeTargets_len_pos (ks % 8) 6 hkf
      have hsum := blocked_add_open fb (ks % 8) 6 false
      simp only [hr', backRankEscRank, if_neg]
      simp only [bne_self_eq_false, Bool.false_eq_true, if_false,
        Bool.and_eq_true, decide_eq_true_eq]
      constructor
      · intro ⟨h1, _⟩; omega
      · intro h1; exact ⟨by omega, by omega⟩

end UnifiedBackRankMateAnalyzer

theorem isEmpty_false_of_any {α : Type} (l : List α) (p : α → Bool)
    (h : l.any p = true) : l.isEmpty = false := by
  cases l <;> simp_all

namespace UnifiedBackRankMateAnalyzer

theorem record_cond_of_grow (s : BRState)
    (h : (finishGame s).allFindings.length = s.allFindings.length + 1) :
    backRankRecordCondition s = true := by
  by_cases g1 : s.gameData.pgn.hasMateChar = true
  case neg =>
    simp only [Bool.not_eq_true] at g1
    have he : finishGame s = s := by simp [finishGame, g1]
    rw [he] at h; omega
  by_cases g2 : brUserWon s = true
  case neg =>
    simp only [Bool.not_eq_true] at g2
    have he : finishGame s = s := by simp [finishGame, g1, g2]
    rw [he] at h; omega
  cases hlm : s.gameData.moves.getLast? with
  | none =>
      have he : finishGame s = s := by simp [finishGame, g1, g2, hlm]
      rw [he] at h; omega
  | some lm =>
  by_cases g3 : (sanStartsRQ lm && strContains lm "#") = true
  case neg =>
    simp only [Bool.not_eq_true] at g3
    have he : finishGame s = s := by simp [finishGame, g1, g2, hlm, g3]
    rw [he] at h; omega
  by_cases g4 : (s.userIsWhite && s.gameData.moves.length % 2 == 0) = true
  case pos =>
    have he : finishGame s = s := by simp [finishGame, g1, g2, hlm, g3, g4]
    rw [he] at h; omega
  by_cases g5 : (!s.userIsWhite && s.gameData.moves.length % 2 == 1) = true
  case pos =>
    simp only [Bool.not_eq_true] at g4
    have he : finishGame s = s := by simp [finishGame, g1, g2, hlm, g3, g4, g5]
    rw [he] at h; omega
  cases hfb : s.gameData.pgn.finalBoard with
  | none =>
      simp only [Bool.not_eq_true] at g4 g5
      have he : finishGame s = s := by simp [finishGame, g1, g2, hlm, g3, g4, g5, hfb]
      rw [he] at h; omega
  | some fb =>
  by_cases g6 : fb.checkmate = true
  case neg =>
    simp only [Bool.not_eq_true] at g4 g5 g6
    have he : finishGame s = s := by simp [finishGame, g1, g2, hlm, g3, g4, g5, hfb, g6]
    rw [he] at h; omega
  by_cases g7 : ((fb.turn && !s.userIsWhite) || (!fb.turn && s.userIsWhite)) = true
  case neg =>
    simp only [Bool.not_eq_true] at g4 g5 g7
    have he : finishGame s = s := by
      simp [finishGame, g1, g2, hlm, g3, g4, g5, hfb, g6, g7]
    rw [he] at h; omega
  cases hks : fb.kingSq fb.turn with
  | none =>
      simp only [Bool.not_eq_true] at g4 g5
      have he : finishGame s = s := by
        simp [finishGame, g1, g2, hlm, g3, g4, g5, hfb, g6, g7, hks]
      rw [he] at h; omega
  | some ks =>
  by_cases g8 : (ks / 8 != (if fb.turn then 0 else 7)) = true
  case pos =>
    simp only [Bool.not_eq_true] at g4 g5
    have he : finishGame s = s := by
      simp [finishGame, g1, g2, hlm, g3, g4, g5, hfb, g6, g7, hks, g8]
    rw [he] at h; omega
  by_cases g9 : (fb.attackersFn (!fb.turn) ks).isEmpty = true
  case pos =>
    simp only [Bool.not_eq_true] at g4 g5 g8
    have he : finishGame s = s := by
      simp [finishGame, g1, g2, hlm, g3, g4, g5, hfb, g6, g7, hks, g8, g9]
    rw [he] at h; omega
  by_cases g10 : ((fb.attackersFn (!fb.turn) ks).any
      (attackerIsRQOnRank fb (if fb.turn then 0 else 7))) = true
  case neg =>
    simp only [Bool.not_eq_true] at g4 g5 g8 g9 g10
    have he : finishGame s = s := by
      simp [finishGame, g1, g2, hlm, g3, g4, g5, hfb, g6, g7, hks, g8, g9, g10]
    rw [he] at h; omega
  by_cases g11 : isKingProperlyBlocked fb fb.turn = true
  case neg =>
    simp only [Bool.not_eq_true] at g4 g5 g8 g9 g10 g11
    have he : finishGame s = s := by
      simp [finishGame, g1, g2, hlm, g3, g4, g5, hfb, g6, g7, hks, g8, g9, g10, g11]
    rw [he] at h; omega
  -- record branch: assemble the condition
  simp only [Bool.not_eq_true] at g4 g5 g8
  simp only [Bool.and_eq_true] at g3
  have hrank : ks / 8 = backRankHomeRank fb.turn := by
    have h8 := g8
    simp only [bne_eq_false_iff_eq] at h8
    simpa [backRankHomeRank] using h8
  have hopen := (isKingProperlyBlocked_iff fb fb.turn ks hks hrank).mp g11
  have hturn : (fb.turn != s.userIsWhite) = true := by
    cases ht : fb.turn <;> cases hu : s.userIsWhite <;> simp_all
  have hmod : s.gameData.moves.length % 2 < 2 := Nat.mod_lt _ (by norm_num)
  have hpar : (if s.userIsWhite then s.gameData.moves.length % 2 == 1
      else s.gameData.moves.length % 2 == 0) = true := by
    cases hu : s.userIsWhite
    · rw [hu] at g5
      simp only [Bool.not_false, Bool.true_and, beq_eq_false_iff_ne] at g5
      simp only [hu, Bool.false_eq_true, if_false, beq_iff_eq]
      omega
    · rw [hu] at g4
      simp only [Bool.true_and, beq_eq_false_iff_ne] at g4
      simp only [hu, if_true, beq_iff_eq]
      omega
  have hrankb : (ks / 8 == backRankHomeRank fb.turn) = true := by
    simp [hrank]
  have hany : ((fb.attackersFn (!fb.turn) ks).any
      (attackerIsRQOnRank fb (backRankHomeRank fb.turn))) = true := by
    simpa [backRankHomeRank] using g10
  have hopenb : decide (escapeOpenCount fb (ks % 8)
      (backRankEscRank fb.turn) fb.turn ≤ 1) = true := decide_eq_true hopen
  simp only [backRankRecordCondition, backRankClaimCondition, hlm, hfb, hks,
    g3.1, g1, g2, g3.2, hpar, g6, hturn, hrankb, hany, hopenb,
    Bool.and_true, Bool.true_and]

theorem grow_of_record_cond (s : BRState)
    (h : backRankRecordCondition s = true) :
    (finishGame s).allFindings.length = s.allFindings.length + 1 := by
  cases hlm : s.gameData.moves.getLast? with
  | none => simp [backRankRecordCondition, backRankClaimCondition, hlm] at h
  | some lm =>
  cases hfb : s.gameData.pgn.finalBoard with
  | none => simp [backRankRecordCondition, backRankClaimCondition, hlm, hfb] at h
  | some fb =>
  cases hks : fb.kingSq fb.turn with
  | none => simp [backRankRecordCondition, backRankClaimCondition, hlm, hfb, hks] at h
  | some ks =>
  simp only [backRankRecordCondition, backRankClaimCondition, hlm, hfb, hks,
    Bool.and_eq_true, decide_eq_true_eq] at h
  obtain ⟨hrq, ⟨⟨⟨g1, g2⟩, ghash⟩, hpar⟩, ⟨⟨g6, hturn⟩, ⟨hrank', hany⟩, hopen⟩⟩ := h
  have hrank : ks / 8 = backRankHomeRank fb.turn := by
    simpa using hrank'
  have g3 : (sanStartsRQ lm && strContains lm "#") = true := by
    simp [hrq, ghash]
  have g4 : (s.userIsWhite && s.gameData.moves.length % 2 == 0) = false := by
    cases hu : s.userIsWhite
    · simp [hu]
    · rw [hu] at hpar
      have hp : s.gameData.moves.length % 2 = 1 := by simpa using hpar
      simp [hu, hp]
  have g5 : (!s.userIsWhite && s.gameData.moves.length % 2 == 1) = false := by
    cases hu : s.userIsWhite
    · rw [hu] at hpar
      have hp : s.gameData.moves.length % 2 = 0 := by simpa using hpar
      simp [hu, hp]
    · simp [hu]
  have g7 : ((fb.turn && !s.userIsWhite) || (!fb.turn && s.userIsWhite)) = true := by
    cases ht : fb.turn <;> cases hu : s.userIsWhite <;> simp_all
  have g8 : (ks / 8 != (if fb.turn then 0 else 7)) = false := by
    simp only [bne_eq_false_iff_eq]
    simpa [backRankHomeRank] using hrank
  have g9 : (fb.attackersFn (!fb.turn) ks).isEmpty = false :=
    isEmpty_false_of_any _ (attackerIsRQOnRank fb (backRankHomeRank fb.turn)) hany
  have g10 : ((fb.attackersFn (!fb.turn) ks).any
      (attackerIsRQOnRank fb (if fb.turn then 0 else 7))) = true := by
    simpa [backRankHomeRank] using hany
  have g11 : isKingProperlyBlocked fb fb.turn = true := by
    refine (isKingProperlyBlocked_iff fb fb.turn ks hks hrank).mpr ?_
    simpa [backRankEscRank] using hopen
  have he : finishGame s
      = { s with foundBackRankMate := true
                 allFindings := s.allFindings ++ [mkBRRef s lm fb fb.turn] } := by
    simp [finishGame, g1, g2, hlm, g3, g4, g5, hfb, g6, g7, hks, g8, g9, g10, g11]
  rw [he]
  simp

end UnifiedBackRankMateAnalyzer

section ClaimTheorems6

open UnifiedBackRankMateAnalyzer

/-- C2 counterexample: a promotion-delivered back-rank mate (e8=Q#).
Every condition of the claim holds — verified checkmate delivered by
the user, mated king on its home rank, an attacking queen on that
rank, all forward escape squares blocked by the mated side's own
pawns — yet the detector records nothing, because the source also
requires the final SAN to begin with R or Q.  The claimed
"if and only if" therefore fails at this input. -/
theorem back_rank_promotion_counterexample :
    backRankClaimCondition backRankPromotionEx = true
  ∧ (UnifiedBackRankMateAnalyzer.finishGame backRankPromotionEx).allFindings.length
      = backRankPromotionEx.allFindings.length := by
  refine ⟨by decide, by decide⟩

/-- C2 amended: the back-rank detector records a finding for a game
iff the claim's conditions hold AND the final move's SAN begins with a
rook or queen letter (so promotion-delivered back-rank mates are
excluded). -/
theorem back_rank_record_iff (s : BRState) :
    (UnifiedBackRankMateAnalyzer.finishGame s).allFindings.length
        = s.allFindings.length + 1
      ↔ backRankRecordCondition s = true :=
  ⟨record_cond_of_grow s, grow_of_record_cond s⟩

/-- Witness for the amended C2 condition: the same position mated by
a rook move Re8# satisfies the amended condition and is recorded. -/
theorem back_rank_record_iff_witness :
    (UnifiedBackRankMateAnalyzer.finishGame backRankRookEx).allFindings.length
      = backRankRookEx.allFindings.length + 1 :=
  (back_rank_record_iff backRankRookEx).mpr (by decide)

end ClaimTheorems6

section ClaimTheorems7

open UnifiedBestGameAnalyzer

/-- C7: the fallback rescoring pass runs only when zero queen/rook
sacrifices were found in the batch (spec-modelled caller) and the
average rating is at or above the fallback table's elo_threshold
(checked inside rescore_with_fallback_config); when it runs it
recomputes every stored breakdown in place from the stored refs alone
— no game is replayed — replacing simple numeric config keys and
leaving table-valued or absent keys (such as game_speed, derived from
the game_ends_before_moves threshold table) unchanged, and re-selects
the best game with the same strict-greater first-maximum rule. -/
theorem fallback_rescore_spec (sac : Nat) (s : BGState) (cfg : FallbackConfig) (e : Int) :
    (sac ≠ 0 → applyFallbackPass sac s (some cfg) (some e) = s)
  ∧ (e < cfg.eloThreshold → applyFallbackPass sac s (some cfg) (some e) = s)
  ∧ (applyFallbackPass sac s none (some e) = s)
  ∧ (sac = 0 → cfg.eloThreshold ≤ e →
      (applyFallbackPass sac s (some cfg) (some e)).allGameRefs
          = s.allGameRefs.map (rescoreRef cfg)
      ∧ (∀ key orig, cfg.lookup key = none ∨ cfg.lookup key = some ConfigVal.table →
            rescorePoints cfg key orig = orig)
      ∧ (∀ key orig v, cfg.lookup key = some (ConfigVal.num v) → 0 < orig →
            rescorePoints cfg key orig = v)
      ∧ (s.allGameRefs ≠ [] →
          ∃ r pre post,
            (applyFallbackPass sac s (some cfg) (some e)).bestRef = some r
            ∧ s.allGameRefs.map (rescoreRef cfg) = pre ++ r :: post
            ∧ (∀ x ∈ pre, x.totalPoints < r.totalPoints)
            ∧ (∀ x ∈ s.allGameRefs.map (rescoreRef cfg),
                x.totalPoints ≤ r.totalPoints))) := by
  refine ⟨?_, ?_, ?_, ?_⟩
  · intro hsac
    have hb : (sac == 0) = false := by simpa using hsac
    simp [applyFallbackPass, hb]
  · intro helo
    by_cases hb : (sac == 0) = true
    · simp [applyFallbackPass, hb, rescoreWithFallbackConfig, helo]
    · simp only [Bool.not_eq_true] at hb
      simp [applyFallbackPass, hb]
  · by_cases hb : (sac == 0) = true
    · simp [applyFallbackPass, hb, rescoreWithFallbackConfig]
    · simp only [Bool.not_eq_true] at hb
      simp [applyFallbackPass, hb]
  · intro hsac helo
    have hb : (sac == 0) = true := by simpa using hsac
    have hd : decide (e < cfg.eloThreshold) = false := by
      simp only [decide_eq_false_iff_not]
      omega
    have hrun : applyFallbackPass sac s (some cfg) (some e)
        = (s.allGameRefs.map (rescoreRef cfg)).foldl trackGame
            { bestScore := none, bestRef := none, allGameRefs := [] } := by
      simp [applyFallbackPass, hb, rescoreWithFallbackConfig, hd]
    refine ⟨?_, ?_, ?_, ?_⟩
    · rw [hrun, foldl_trackGame_refs]
      rfl
    · intro key orig hk
      rcases hk with hk | hk <;> simp [rescorePoints, hk]
    · intro key orig v hk horig
      have h0 : ¬ orig < 0 := by omega
      have h1 : (orig != 0) = true := by simpa using (by omega : orig ≠ 0)
      simp [rescorePoints, hk, h0, h1]
    · intro hne
      have hinv := foldl_trackGame_inv (s.allGameRefs.map (rescoreRef cfg))
        { bestScore := none, bestRef := none, allGameRefs := [] } []
        (Or.inl ⟨rfl, rfl, rfl⟩)
      simp only [List.nil_append] at hinv
      rcases hinv with ⟨_, _, h3⟩ | ⟨r, pre, post, h1, _, h3, h4, h5⟩
      · exact absurd (List.map_eq_nil_iff.mp h3) hne
      · exact ⟨r, pre, post, by rw [hrun]; exact h1, h3, h4, h5⟩

/-- Witness for C7 at concrete inputs: with sacrifices present or a
low average rating the stored scoring is untouched; with zero
sacrifices and rating 900 every breakdown is rescored in place, the
threshold-table-derived game_speed key keeps its stored values, and
the simple numeric checkmate_win key takes the fallback value. -/
theorem fallback_rescore_spec_witness :
    applyFallbackPass 2 bgFallbackState (some fallbackCfgEx) (some 900) = bgFallbackState
  ∧ applyFallbackPass 0 bgFallbackState (some fallbackCfgEx) (some 500) = bgFallbackState
  ∧ (applyFallbackPass 0 bgFallbackState (some fallbackCfgEx) (some 900)).allGameRefs
      = bgFallbackState.allGameRefs.map (rescoreRef fallbackCfgEx)
  ∧ rescorePoints fallbackCfgEx "game_speed" 7 = 7
  ∧ rescorePoints fallbackCfgEx "checkmate_win" 25 = 50 := by
  refine ⟨?_, ?_, ?_, ?_, ?_⟩
  · exact (fallback_rescore_spec 2 bgFallbackState fallbackCfgEx 900).1 (by decide)
  · exact (fallback_rescore_spec 0 bgFallbackState fallbackCfgEx 500).2.1 (by decide)
  · exact ((fallback_rescore_spec 0 bgFallbackState fallbackCfgEx 900).2.2.2
      rfl (by decide)).1
  · exact ((fallback_rescore_spec 0 bgFallbackState fallbackCfgEx 900).2.2.2
      rfl (by decide)).2.1 "game_speed" 7 (Or.inl (by decide))
  · exact ((fallback_rescore_spec 0 bgFallbackState fallbackCfgEx 900).2.2.2
      rfl (by decide)).2.2.1 "checkmate_win" 25 50 (by decide) (by decide)

end ClaimTheorems7

end AlpineChess
